import Mathlib

set_option autoImplicit false

/-!
Shallow embedding of the VT100 terminal emulator of `src/snapshot/pty.rs`
(struct `Vt100Terminal`, its methods, the `TerminalPerformer` dispatch layer,
and the `parse_input` key translation), together with proofs of the spec
claims about them.

Modelling conventions:
* `u8`/`u16`/`u32` values are `Nat`; `i32` values are `Int`.  Arithmetic is
  modelled with release-profile (wrapping) semantics: `as` casts truncate
  (`u32AsI32`, `% 256` for `as u8`) and additions wrap (`wrapI32`) where the
  value can leave the type's range.  Wrap-around that the cursor invariant
  makes unreachable is not written out (a comment marks each such spot).
* Rust panic sites (slice indexing, `Vec::remove` on an empty vector,
  `Ord::clamp` with `min > max`) are modelled twice: the plain functions
  below are total (out-of-range writes are dropped, the clamp returns its
  upper bound), and the `Checked` variants further down return `none`
  exactly at the panic sites.
* Grids are `List (List _)` mirroring the `Vec<Vec<_>>` buffers.
-/

namespace TuiHarness

/-- Number of values of `u32`. -/
def U32 : Nat := 2 ^ 32

/-- An RGB color triple, modelling the Rust `[u8; 3]`. -/
abbrev Color := Nat × Nat × Nat

/-- `ANSI_COLORS` constant table from `src/snapshot/pty.rs`. -/
def ANSI_COLORS : List Color :=
  [(0, 0, 0), (205, 49, 49), (13, 188, 121), (229, 229, 16),
   (36, 114, 200), (188, 63, 188), (17, 168, 205), (229, 229, 229)]

/-- `ANSI_BRIGHT_COLORS` constant table from `src/snapshot/pty.rs`. -/
def ANSI_BRIGHT_COLORS : List Color :=
  [(102, 102, 102), (241, 76, 76), (35, 209, 139), (245, 245, 67),
   (59, 142, 234), (214, 112, 214), (41, 184, 219), (255, 255, 255)]

/-- `clamp_u16_to_u8`: `value.min(255) as u8`. -/
def clamp_u16_to_u8 (value : Nat) : Nat := min value 255

/-- Rust `u8::saturating_add`. -/
def saturatingAddU8 (a b : Nat) : Nat := min (a + b) 255

/-- Rust `u8::saturating_mul`. -/
def saturatingMulU8 (a b : Nat) : Nat := min (a * b) 255

/-- One channel of `brighten_color`:
`color[i].saturating_add(64).max(color[i].saturating_mul(4) / 3)`. -/
def brighten_channel (c : Nat) : Nat :=
  max (saturatingAddU8 c 64) (saturatingMulU8 c 4 / 3)

/-- `brighten_color` from `src/snapshot/pty.rs`, applied per channel. -/
def brighten_color (c : Color) : Color :=
  (brighten_channel c.1, brighten_channel c.2.1, brighten_channel c.2.2)

/-- The `scale` table inside `xterm_256_to_rgb`. -/
def xtermScale : List Nat := [0, 95, 135, 175, 215, 255]

/-- `xterm_256_to_rgb` from `src/snapshot/pty.rs`; `idx` is a `u8` value.
The list indexings are in range for every `idx < 256` (`idx - 30` style bounds
come from the surrounding range match), so `getD`'s default is never used. -/
def xterm_256_to_rgb (idx : Nat) : Color :=
  if idx ≤ 7 then ANSI_COLORS.getD idx (0, 0, 0)
  else if idx ≤ 15 then ANSI_BRIGHT_COLORS.getD (idx - 8) (0, 0, 0)
  else if idx ≤ 231 then
    let normalized := idx - 16
    let r := normalized / 36
    let g := (normalized % 36) / 6
    let b := normalized % 6
    (xtermScale.getD r 0, xtermScale.getD g 0, xtermScale.getD b 0)
  else
    let shade := 8 + (idx - 232) * 10
    (shade, shade, shade)

/-- `CellAttributes` (bold, underline, inverse). -/
structure CellAttributes where
  bold : Bool := false
  underline : Bool := false
  inverse : Bool := false
deriving DecidableEq

/-- `SavedScreen`: snapshot stored while the alternate screen is active. -/
structure SavedScreen where
  buffer : List (List Char)
  fg_colors : List (List Color)
  bg_colors : List (List Color)
  attributes : List (List CellAttributes)
  cursor_x : Nat
  cursor_y : Nat
deriving DecidableEq

/-- `Vt100Terminal` state. -/
structure Vt100Terminal where
  width : Nat
  height : Nat
  buffer : List (List Char)
  fg_colors : List (List Color)
  bg_colors : List (List Color)
  attributes : List (List CellAttributes)
  cursor_x : Nat
  cursor_y : Nat
  current_fg : Color
  current_bg : Color
  current_attrs : CellAttributes
  default_fg : Color
  default_bg : Color
  saved_cursor : Option (Nat × Nat)
  alternate_screen : Option SavedScreen
  in_alternate_screen : Bool
deriving DecidableEq

namespace Vt100Terminal

/-- `Vt100Terminal::new(width, height)`. -/
def new (width height : Nat) : Vt100Terminal where
  width := width
  height := height
  buffer := List.replicate height (List.replicate width ' ')
  fg_colors := List.replicate height (List.replicate width (255, 255, 255))
  bg_colors := List.replicate height (List.replicate width (0, 0, 0))
  attributes := List.replicate height (List.replicate width {})
  cursor_x := 0
  cursor_y := 0
  current_fg := (255, 255, 255)
  current_bg := (0, 0, 0)
  current_attrs := {}
  default_fg := (255, 255, 255)
  default_bg := (0, 0, 0)
  saved_cursor := none
  alternate_screen := none
  in_alternate_screen := false

end Vt100Terminal

/-- Write `v` at row `y`, column `x` of a grid: `m[y][x] = v`.  Out-of-range
writes are dropped here; the checked model treats them as the panic they are
in Rust. -/
def setMat {α : Type} (m : List (List α)) (y x : Nat) (v : α) : List (List α) :=
  match m.get? y with
  | some row => m.set y (row.set x v)
  | none => m

namespace Vt100Terminal

/-- The common body of the write loops:
`buffer[y][x] = ch; fg_colors[y][x] = fg; bg_colors[y][x] = bg;
attributes[y][x] = attrs`. -/
def putCell (t : Vt100Terminal) (y x : Nat) (ch : Char) (fg bg : Color)
    (attrs : CellAttributes) : Vt100Terminal :=
  { t with
    buffer := setMat t.buffer y x ch
    fg_colors := setMat t.fg_colors y x fg
    bg_colors := setMat t.bg_colors y x bg
    attributes := setMat t.attributes y x attrs }

/-- Inner loop `for x in xs { ...[y][x] = ... }` of the erase methods. -/
def fillCols (t : Vt100Terminal) (y : Nat) (xs : List Nat) (ch : Char)
    (fg bg : Color) (attrs : CellAttributes) : Vt100Terminal :=
  match xs with
  | [] => t
  | x :: rest => (t.putCell y x ch fg bg attrs).fillCols y rest ch fg bg attrs

/-- `reset_attributes`. -/
def reset_attributes (t : Vt100Terminal) : Vt100Terminal :=
  { t with current_fg := t.default_fg, current_bg := t.default_bg, current_attrs := {} }

/-- Outer loop of `Vt100Terminal::clear`: rows `ys`, each filled over
`0..width` with blanks in the default colors and default attributes. -/
def clearLoop (t : Vt100Terminal) (ys : List Nat) : Vt100Terminal :=
  match ys with
  | [] => t
  | y :: rest =>
    (t.fillCols y (List.range t.width) ' ' t.default_fg t.default_bg {}).clearLoop rest

/-- `Vt100Terminal::clear`: blank every cell with the default colors, home the
cursor, drop the saved cursor, and reset the pen. -/
def clear (t : Vt100Terminal) : Vt100Terminal :=
  (({ t.clearLoop (List.range t.height) with
      cursor_x := 0, cursor_y := 0, saved_cursor := none } : Vt100Terminal)).reset_attributes

/-- The two trailing stages of `Vt100Terminal::write_char`: the
"Handle line wrapping" block, then the "Handle scrolling" block
(`Vec::remove(0)` is `List.tail`, `push` appends the blank row literals of
the source). -/
def wrapScroll (t1 : Vt100Terminal) : Vt100Terminal :=
  let t2 :=
    if t1.width ≤ t1.cursor_x then { t1 with cursor_x := 0, cursor_y := t1.cursor_y + 1 }
    else t1
  if t2.height ≤ t2.cursor_y then
    { t2 with
      buffer := t2.buffer.tail ++ [List.replicate t2.width ' ']
      fg_colors := t2.fg_colors.tail ++ [List.replicate t2.width ((255, 255, 255) : Color)]
      bg_colors := t2.bg_colors.tail ++ [List.replicate t2.width ((0, 0, 0) : Color)]
      attributes := t2.attributes.tail ++ [List.replicate t2.width ({} : CellAttributes)]
      cursor_y := t2.height - 1 }
  else t2

/-- `Vt100Terminal::write_char`.  The first stage handles the character, then
`wrapScroll` applies the wrap and scroll stages.  The `% U32` on the tab stop
is the release-profile `u32` wrap of `((x / 8) + 1) * 8`; the `+ 1`
increments cannot wrap because the cursor stays below `width`/`height
< 2^32`. -/
def write_char (t : Vt100Terminal) (ch : Char) : Vt100Terminal :=
  let t1 :=
    if ch = '\n' then { t with cursor_y := t.cursor_y + 1, cursor_x := 0 }
    else if ch = '\r' then { t with cursor_x := 0 }
    else if ch = '\t' then { t with cursor_x := ((t.cursor_x / 8 + 1) * 8) % U32 }
    else
      let t' :=
        if t.cursor_x < t.width ∧ t.cursor_y < t.height then
          t.putCell t.cursor_y t.cursor_x ch t.current_fg t.current_bg t.current_attrs
        else t
      { t' with cursor_x := t'.cursor_x + 1 }
  wrapScroll t1

/-- `Vt100Terminal::move_cursor`: clamp into the grid
(`x.min(width.saturating_sub(1))`, Nat subtraction is saturating). -/
def move_cursor (t : Vt100Terminal) (x y : Nat) : Vt100Terminal :=
  { t with cursor_x := min x (t.width - 1), cursor_y := min y (t.height - 1) }

/-- `set_fg_color`. -/
def set_fg_color (t : Vt100Terminal) (color : Color) : Vt100Terminal :=
  { t with current_fg := color }

/-- `set_bg_color`. -/
def set_bg_color (t : Vt100Terminal) (color : Color) : Vt100Terminal :=
  { t with current_bg := color }

/-- `reset_fg`. -/
def reset_fg (t : Vt100Terminal) : Vt100Terminal := { t with current_fg := t.default_fg }

/-- `reset_bg`. -/
def reset_bg (t : Vt100Terminal) : Vt100Terminal := { t with current_bg := t.default_bg }

/-- `set_bold`. -/
def set_bold (t : Vt100Terminal) (enabled : Bool) : Vt100Terminal :=
  { t with current_attrs := { t.current_attrs with bold := enabled } }

/-- `set_underline`. -/
def set_underline (t : Vt100Terminal) (enabled : Bool) : Vt100Terminal :=
  { t with current_attrs := { t.current_attrs with underline := enabled } }

/-- `set_inverse`. -/
def set_inverse (t : Vt100Terminal) (enabled : Bool) : Vt100Terminal :=
  { t with current_attrs := { t.current_attrs with inverse := enabled } }

/-- `enter_alternate_screen`: no-op if already in the alternate screen,
otherwise snapshot the grid and cursor, mark alternate, and `clear`. -/
def enter_alternate_screen (t : Vt100Terminal) : Vt100Terminal :=
  if t.in_alternate_screen then t
  else
    let saved : SavedScreen :=
      { buffer := t.buffer, fg_colors := t.fg_colors, bg_colors := t.bg_colors,
        attributes := t.attributes, cursor_x := t.cursor_x, cursor_y := t.cursor_y }
    ({ t with alternate_screen := some saved, in_alternate_screen := true } :
      Vt100Terminal).clear

/-- `leave_alternate_screen`: no-op if not in the alternate screen, otherwise
restore the snapshot (`Option::take` leaves `none` behind). -/
def leave_alternate_screen (t : Vt100Terminal) : Vt100Terminal :=
  if t.in_alternate_screen then
    match t.alternate_screen with
    | some saved =>
      { t with
        buffer := saved.buffer, fg_colors := saved.fg_colors,
        bg_colors := saved.bg_colors, attributes := saved.attributes,
        cursor_x := saved.cursor_x, cursor_y := saved.cursor_y,
        alternate_screen := none, in_alternate_screen := false }
    | none => { t with alternate_screen := none, in_alternate_screen := false }
  else t

/-- `clear_line_from_cursor`: guard `cursor_y >= height`, then fill
`cursor_x..width` of the cursor row with blanks in the current pen colors and
default attributes. -/
def clear_line_from_cursor (t : Vt100Terminal) : Vt100Terminal :=
  if t.height ≤ t.cursor_y then t
  else
    t.fillCols t.cursor_y (List.range' t.cursor_x (t.width - t.cursor_x)) ' '
      t.current_fg t.current_bg {}

/-- Outer loop of `clear_from_cursor`: each row `y` is filled from
`start_col..width` where `start_col` is `cursor_x` on the first row and `0`
after. -/
def clearFromLoop (t : Vt100Terminal) (start_row : Nat) (ys : List Nat) : Vt100Terminal :=
  match ys with
  | [] => t
  | y :: rest =>
    let start_col := if y = start_row then t.cursor_x else 0
    (t.fillCols y (List.range' start_col (t.width - start_col)) ' '
      t.current_fg t.current_bg {}).clearFromLoop start_row rest

/-- `clear_from_cursor`: fill from the cursor to the end of the screen with
blanks in the current pen colors and default attributes. -/
def clear_from_cursor (t : Vt100Terminal) : Vt100Terminal :=
  t.clearFromLoop t.cursor_y (List.range' t.cursor_y (t.height - t.cursor_y))

end Vt100Terminal

/-- Reinterpret a `u32` value as `i32` (the Rust `as i32` cast, which
truncates and never panics). -/
def u32AsI32 (n : Nat) : Int :=
  let m := n % U32
  if m < 2 ^ 31 then (m : Int) else (m : Int) - (U32 : Int)

/-- Two's-complement wrap into the `i32` range: release-profile overflow
behavior of `i32` addition. -/
def wrapI32 (a : Int) : Int := (a + 2 ^ 31) % (U32 : Int) - 2 ^ 31

/-- Rust `i32::clamp(lo, hi)`.  Rust panics when `hi < lo`; this total
version returns `hi` there, and `moveCursorRelChecked` models the panic. -/
def clampI32 (v lo hi : Int) : Int := if v < lo then lo else if hi < v then hi else v

namespace Vt100Terminal

/-- `move_cursor_rel`:
`(cursor as i32 + d).clamp(0, dim.saturating_sub(1) as i32) as u32`. -/
def move_cursor_rel (t : Vt100Terminal) (dx dy : Int) : Vt100Terminal :=
  let new_x := clampI32 (wrapI32 (u32AsI32 t.cursor_x + dx)) 0 (u32AsI32 (t.width - 1))
  let new_y := clampI32 (wrapI32 (u32AsI32 t.cursor_y + dy)) 0 (u32AsI32 (t.height - 1))
  { t with cursor_x := new_x.toNat, cursor_y := new_y.toNat }

/-- `save_cursor`. -/
def save_cursor (t : Vt100Terminal) : Vt100Terminal :=
  { t with saved_cursor := some (t.cursor_x, t.cursor_y) }

/-- `restore_cursor`: restore the saved position clamped into the grid; no-op
when nothing is saved. -/
def restore_cursor (t : Vt100Terminal) : Vt100Terminal :=
  match t.saved_cursor with
  | some (x, y) =>
    { t with cursor_x := min x (t.width - 1), cursor_y := min y (t.height - 1) }
  | none => t

/-- `backspace`: step the cursor left when the column is positive. -/
def backspace (t : Vt100Terminal) : Vt100Terminal :=
  if 0 < t.cursor_x then { t with cursor_x := t.cursor_x - 1 } else t

end Vt100Terminal

/-- `TerminalPerformer::param_or`: first value of the `index`-th parameter
group, with `0` and absence both falling back to `default_value`. -/
def param_or (params : List (List Nat)) (index default_value : Nat) : Nat :=
  ((((params.get? index).bind List.head?).filter (fun v => v != 0)).getD default_value)

/-- The single-parameter arms of the `match value` in
`TerminalPerformer::handle_sgr` (everything except `38 | 48`, whose extended
sequences consume further parameters and live in `sgrLoop`); the final branch
is the source's `_ => {}`. -/
def sgrApplySimple (t : Vt100Terminal) (value : Nat) : Vt100Terminal :=
  if value = 0 then t.reset_attributes
  else if value = 1 then t.set_bold true
  else if value = 4 then t.set_underline true
  else if value = 7 then t.set_inverse true
  else if value = 22 then t.set_bold false
  else if value = 24 then t.set_underline false
  else if value = 27 then t.set_inverse false
  else if 30 ≤ value ∧ value ≤ 37 then t.set_fg_color (ANSI_COLORS.getD (value - 30) (0, 0, 0))
  else if 40 ≤ value ∧ value ≤ 47 then t.set_bg_color (ANSI_COLORS.getD (value - 40) (0, 0, 0))
  else if 90 ≤ value ∧ value ≤ 97 then
    t.set_fg_color (ANSI_BRIGHT_COLORS.getD (value - 90) (0, 0, 0))
  else if 100 ≤ value ∧ value ≤ 107 then
    t.set_bg_color (ANSI_BRIGHT_COLORS.getD (value - 100) (0, 0, 0))
  else if value = 39 then t.reset_fg
  else if value = 49 then t.reset_bg
  else t

/-- The `while i < values.len()` loop of `TerminalPerformer::handle_sgr`,
written as recursion on the remaining parameter values.  A `break` in the
source returns the state built so far; the `38 | 48` arm consumes the mode
and color parameters exactly as the index arithmetic of the source does. -/
def sgrLoop (t : Vt100Terminal) : List Nat → Vt100Terminal
  | [] => t
  | value :: rest =>
    if value = 38 ∨ value = 48 then
      -- `is_fg` of the source: the arm was entered with value 38 or 48
      match rest with
      | [] => t
      | mode :: rest2 =>
        if mode = 2 then
          match rest2 with
          | r :: g :: b :: rest5 =>
            let color : Color := (clamp_u16_to_u8 r, clamp_u16_to_u8 g, clamp_u16_to_u8 b)
            sgrLoop (if value = 38 then t.set_fg_color color else t.set_bg_color color) rest5
          | _ => t
        else if mode = 5 then
          match rest2 with
          | n :: rest3 =>
            let color := xterm_256_to_rgb (n % 256)
            sgrLoop (if value = 38 then t.set_fg_color color else t.set_bg_color color) rest3
          | [] => t
        else sgrLoop t rest2
    else sgrLoop (sgrApplySimple t value) rest

/-- `TerminalPerformer::handle_sgr`: empty parameter lists reset the pen;
otherwise the flattened values drive `sgrLoop`. -/
def handle_sgr (t : Vt100Terminal) (params : List (List Nat)) : Vt100Terminal :=
  if params = [] then t.reset_attributes
  else
    let values := params.flatten
    if values = [] then t.reset_attributes
    else sgrLoop t values

/-- `TerminalPerformer::execute`: C0 control bytes in ground state. -/
def performExecute (t : Vt100Terminal) (byte : Nat) : Vt100Terminal :=
  if byte = 0x0A then t.write_char '\n'
  else if byte = 0x0D then t.write_char '\r'
  else if byte = 0x09 then t.write_char '\t'
  else if byte = 0x08 then t.backspace
  else t

/-- `TerminalPerformer::csi_dispatch`. -/
def csi_dispatch (t : Vt100Terminal) (params : List (List Nat))
    (intermediates : List Nat) (action : Char) : Vt100Terminal :=
  let private_mode : Bool := intermediates.any (fun b => b == 0x3F)
  if action = 'H' ∨ action = 'f' then
    let row := param_or params 0 1 - 1
    let col := param_or params 1 1 - 1
    t.move_cursor col row
  else if action = 'A' then t.move_cursor_rel 0 (-(param_or params 0 1 : Int))
  else if action = 'B' then t.move_cursor_rel 0 (param_or params 0 1 : Int)
  else if action = 'C' then t.move_cursor_rel (param_or params 0 1 : Int) 0
  else if action = 'D' then t.move_cursor_rel (-(param_or params 0 1 : Int)) 0
  else if action = 'J' then
    let mode := param_or params 0 0
    if mode = 0 then t.clear_from_cursor
    else if mode = 2 ∨ mode = 3 then t.clear
    else t
  else if action = 'K' then t.clear_line_from_cursor
  else if action = 'm' then handle_sgr t params
  else if action = 's' then t.save_cursor
  else if action = 'u' then t.restore_cursor
  else if action = 'h' ∧ private_mode then
    let mode := param_or params 0 0
    if mode = 47 ∨ mode = 1047 ∨ mode = 1049 then t.enter_alternate_screen else t
  else if action = 'l' ∧ private_mode then
    let mode := param_or params 0 0
    if mode = 47 ∨ mode = 1047 ∨ mode = 1049 then t.leave_alternate_screen else t
  else t

/-- `TerminalPerformer::esc_dispatch` (`ESC 7`, `ESC 8`, `ESC c`). -/
def esc_dispatch (t : Vt100Terminal) (intermediates : List Nat) (byte : Nat) :
    Vt100Terminal :=
  let _ := intermediates
  if byte = 0x37 then t.save_cursor
  else if byte = 0x38 then t.restore_cursor
  else if byte = 0x63 then t.clear
  else t

/-- One callback of the `vte::Perform` interface as invoked on
`TerminalPerformer`.  Any byte fed through `Vt100Parser::process_byte`
results in a (possibly empty) sequence of these events; the `vte` parser
crate performing that translation is external to this repository. -/
inductive Event where
  | print (c : Char)
  | execute (b : Nat)
  | csi (params : List (List Nat)) (intermediates : List Nat) (action : Char)
  | esc (intermediates : List Nat) (b : Nat)
deriving DecidableEq

/-- Dispatch one performer event to the terminal. -/
def applyEvent (t : Vt100Terminal) : Event → Vt100Terminal
  | .print c => t.write_char c
  | .execute b => performExecute t b
  | .csi p i a => csi_dispatch t p i a
  | .esc i b => esc_dispatch t i b

/-- Fold a sequence of performer events into the terminal. -/
def applyEvents (t : Vt100Terminal) (es : List Event) : Vt100Terminal :=
  es.foldl applyEvent t

/-- Feed a string character by character through the printable path. -/
def printEvents (s : String) : List Event := s.toList.map Event.print

/-! ### Spec-side reference definitions

These two definitions follow the wording of the specification (not the
source); the claims compare them with the source-derived functions above. -/

/-- The 256-color palette as the spec words it: indices 0-7 the ANSI standard
colors, 8-15 the ANSI bright colors, 16-231 the 6×6×6 cube with channel
levels `[0, 95, 135, 175, 215, 255]` in R-major order, 232-255 the grayscale
ramp `8 + 10·(N−232)` on all three channels. -/
def palette256Spec (n : Nat) : Color :=
  if n ≤ 7 then ANSI_COLORS.getD n (0, 0, 0)
  else if n ≤ 15 then ANSI_BRIGHT_COLORS.getD (n - 8) (0, 0, 0)
  else if n ≤ 231 then
    let k := n - 16
    (xtermScale.getD (k / 36) 0, xtermScale.getD (k / 6 % 6) 0, xtermScale.getD (k % 6) 0)
  else (8 + 10 * (n - 232), 8 + 10 * (n - 232), 8 + 10 * (n - 232))

/-- The spec's bold-brightening formula for one channel:
`c' = max(c + 64 (saturating at 255), (c·4)/3)`, with the multiplication not
saturated. -/
def specBrightenChannel (c : Nat) : Nat := max (min (c + 64) 255) (c * 4 / 3)

/-! ### Input translation (`parse_input`)

Strings are modelled as `List Char`, bytes as `Nat`.  Rust's
`str::to_lowercase` is modelled for the ASCII range only (`asciiLower`): on
ASCII input `to_lowercase` is exactly ASCII lowering, with no special
mappings and no multi-character expansions, so the model is exact there and
the general theorems about `parse_input` carry an explicit all-ASCII
hypothesis on the name.  `str::trim` is modelled in full: `rustIsWhitespace`
is the complete Unicode `White_Space` property that Rust's
`char::is_whitespace` tests. -/

/-- ASCII lowercasing of one character.  Inside the ctrl arm this is exactly
Rust's `char::to_ascii_lowercase`; as a model of `str::to_lowercase` it is
exact on ASCII input, and the `parse_input` theorems restrict to ASCII
names. -/
def asciiLower (c : Char) : Char :=
  if 'A' ≤ c ∧ c ≤ 'Z' then Char.ofNat (c.toNat + 32) else c

/-- Rust `char::is_whitespace`: the Unicode `White_Space` property, which
holds for exactly these 25 code points (TAB, LF, VT, FF, CR, space, NEL,
NBSP, OGHAM SPACE MARK, the EN QUAD..HAIR SPACE range, LINE SEPARATOR,
PARAGRAPH SEPARATOR, NARROW NBSP, MEDIUM MATHEMATICAL SPACE, IDEOGRAPHIC
SPACE). -/
def rustIsWhitespace (c : Char) : Bool :=
  [0x09, 0x0A, 0x0B, 0x0C, 0x0D, 0x20, 0x85, 0xA0, 0x1680,
   0x2000, 0x2001, 0x2002, 0x2003, 0x2004, 0x2005, 0x2006, 0x2007, 0x2008,
   0x2009, 0x200A, 0x2028, 0x2029, 0x202F, 0x205F, 0x3000].contains c.toNat

/-- Rust `str::trim`: strip Unicode whitespace from both ends. -/
def trimChars (l : List Char) : List Char :=
  ((l.dropWhile rustIsWhitespace).reverse.dropWhile rustIsWhitespace).reverse

/-- Rust `str::starts_with` on char lists. -/
def listStartsWith (s pat : List Char) : Bool := s.take pat.length == pat

/-- Worker for `splitPM`: accumulates the current piece in reverse. -/
def splitPMAux : List Char → List Char → List (List Char)
  | [], acc => [acc.reverse]
  | c :: rest, acc =>
    if c = '+' ∨ c = '-' then acc.reverse :: splitPMAux rest []
    else splitPMAux rest (c :: acc)

/-- Rust `str::split(&['+', '-'][..])` on char lists; always non-empty. -/
def splitPM (l : List Char) : List (List Char) := splitPMAux l []

/-- `.split(..).last().unwrap_or("")` as used in `parse_input`. -/
def lastPiece (l : List Char) : List Char := (splitPM l).getLastD []

/-- UTF-8 encoding of one character (one step of Rust `str::as_bytes`). -/
def utf8Char (c : Char) : List Nat :=
  let n := c.toNat
  if n < 0x80 then [n]
  else if n < 0x800 then [0xC0 + n / 64, 0x80 + n % 64]
  else if n < 0x10000 then [0xE0 + n / 4096, 0x80 + n / 64 % 64, 0x80 + n % 64]
  else [0xF0 + n / 262144, 0x80 + n / 4096 % 64, 0x80 + n / 64 % 64, 0x80 + n % 64]

/-- Rust `str::as_bytes` (UTF-8) on char lists. -/
def utf8Bytes (l : List Char) : List Nat := (l.map utf8Char).flatten

/-- The match arms of `parse_input`, factored over the already lowercased and
trimmed name `s` (the scrutinee of the Rust `match`); `input` is the original
name, whose bytes the fall-through arms return.  Byte-string literals of the
source are written out as numeric lists (`0x1B 0x5B 0x41` is `ESC [ A`, and
so on).  `key.len() == 1` in the ctrl arm is a byte length, modelled through
`utf8Bytes`. -/
def parse_input_arms (s input : List Char) : List Nat :=
  -- Arrow keys
  if s = "up".toList then [0x1B, 0x5B, 0x41]
  else if s = "down".toList then [0x1B, 0x5B, 0x42]
  else if s = "right".toList then [0x1B, 0x5B, 0x43]
  else if s = "left".toList then [0x1B, 0x5B, 0x44]
  -- Navigation keys
  else if s = "home".toList then [0x1B, 0x5B, 0x48]
  else if s = "end".toList then [0x1B, 0x5B, 0x46]
  else if s = "pageup".toList ∨ s = "page_up".toList ∨ s = "pgup".toList then
    [0x1B, 0x5B, 0x35, 0x7E]
  else if s = "pagedown".toList ∨ s = "page_down".toList ∨ s = "pgdn".toList then
    [0x1B, 0x5B, 0x36, 0x7E]
  else if s = "insert".toList ∨ s = "ins".toList then [0x1B, 0x5B, 0x32, 0x7E]
  else if s = "delete".toList ∨ s = "del".toList then [0x1B, 0x5B, 0x33, 0x7E]
  -- Common keys
  else if s = "enter".toList ∨ s = "return".toList then [0x0D]
  else if s = "space".toList then [0x20]
  else if s = "tab".toList then [0x09]
  else if s = "backspace".toList ∨ s = "bs".toList then [0x7F]
  else if s = "escape".toList ∨ s = "esc".toList then [0x1B]
  -- Function keys
  else if s = "f1".toList then [0x1B, 0x4F, 0x50]
  else if s = "f2".toList then [0x1B, 0x4F, 0x51]
  else if s = "f3".toList then [0x1B, 0x4F, 0x52]
  else if s = "f4".toList then [0x1B, 0x4F, 0x53]
  else if s = "f5".toList then [0x1B, 0x5B, 0x31, 0x35, 0x7E]
  else if s = "f6".toList then [0x1B, 0x5B, 0x31, 0x37, 0x7E]
  else if s = "f7".toList then [0x1B, 0x5B, 0x31, 0x38, 0x7E]
  else if s = "f8".toList then [0x1B, 0x5B, 0x31, 0x39, 0x7E]
  else if s = "f9".toList then [0x1B, 0x5B, 0x32, 0x30, 0x7E]
  else if s = "f10".toList then [0x1B, 0x5B, 0x32, 0x31, 0x7E]
  else if s = "f11".toList then [0x1B, 0x5B, 0x32, 0x33, 0x7E]
  else if s = "f12".toList then [0x1B, 0x5B, 0x32, 0x34, 0x7E]
  -- Ctrl combinations
  else if listStartsWith s "ctrl+".toList ∨ listStartsWith s "ctrl-".toList ∨
      listStartsWith s "c-".toList then
    let key := lastPiece s
    if (utf8Bytes key).length = 1 then
      let ch := asciiLower (key.headD ' ')
      if 'a' ≤ ch ∧ ch ≤ 'z' then [ch.toNat - 0x61 + 1]
      else utf8Bytes input
    else if key = "space".toList then [0x00]
    else utf8Bytes input
  -- Alt combinations (send ESC before the key)
  else if listStartsWith s "alt+".toList ∨ listStartsWith s "alt-".toList ∨
      listStartsWith s "m-".toList then
    0x1B :: utf8Bytes (lastPiece s)
  -- Single character or literal text
  else utf8Bytes input

/-- `parse_input` from `src/snapshot/pty.rs`: lowercase, trim, then match. -/
def parse_input (input : List Char) : List Nat :=
  parse_input_arms (trimChars (input.map asciiLower)) input

/-- One Bool per `match` arm guard of `parse_input`, used to state the
fall-through (verbatim) case: `false` means the trimmed lowercase name
matches no fixed row and no ctrl/alt prefix. -/
def matchesArm (s : List Char) : Bool :=
  s == "up".toList || s == "down".toList || s == "right".toList || s == "left".toList ||
  s == "home".toList || s == "end".toList ||
  s == "pageup".toList || s == "page_up".toList || s == "pgup".toList ||
  s == "pagedown".toList || s == "page_down".toList || s == "pgdn".toList ||
  s == "insert".toList || s == "ins".toList ||
  s == "delete".toList || s == "del".toList ||
  s == "enter".toList || s == "return".toList ||
  s == "space".toList || s == "tab".toList ||
  s == "backspace".toList || s == "bs".toList ||
  s == "escape".toList || s == "esc".toList ||
  s == "f1".toList || s == "f2".toList || s == "f3".toList || s == "f4".toList ||
  s == "f5".toList || s == "f6".toList || s == "f7".toList || s == "f8".toList ||
  s == "f9".toList || s == "f10".toList || s == "f11".toList || s == "f12".toList ||
  listStartsWith s "ctrl+".toList || listStartsWith s "ctrl-".toList ||
  listStartsWith s "c-".toList ||
  listStartsWith s "alt+".toList || listStartsWith s "alt-".toList ||
  listStartsWith s "m-".toList

/-! ### Checked model

The same operations with every Rust panic site made explicit: `none` is a
panic.  Modelled panic sites: indexing `buffer[y][x]` (and the three color
and attribute grids) out of range, `Vec::remove(0)` on an empty vector,
`i32::clamp` with `min > max`, and the constant-table indexings in
`handle_sgr` and `xterm_256_to_rgb`.  Integer arithmetic keeps the
release-profile wrapping semantics described at the top of the file. -/

/-- Checked `m[y][x] = v`: `none` when either index is out of range. -/
def setMatChecked {α : Type} (m : List (List α)) (y x : Nat) (v : α) :
    Option (List (List α)) :=
  match m.get? y with
  | some row => if x < row.length then some (m.set y (row.set x v)) else none
  | none => none

namespace Vt100Terminal

/-- Checked `putCell`. -/
def putCellChecked (t : Vt100Terminal) (y x : Nat) (ch : Char) (fg bg : Color)
    (attrs : CellAttributes) : Option Vt100Terminal := do
  let b ← setMatChecked t.buffer y x ch
  let f ← setMatChecked t.fg_colors y x fg
  let g ← setMatChecked t.bg_colors y x bg
  let a ← setMatChecked t.attributes y x attrs
  some { t with buffer := b, fg_colors := f, bg_colors := g, attributes := a }

/-- Checked `fillCols`. -/
def fillColsChecked (t : Vt100Terminal) (y : Nat) (xs : List Nat) (ch : Char)
    (fg bg : Color) (attrs : CellAttributes) : Option Vt100Terminal :=
  match xs with
  | [] => some t
  | x :: rest =>
    match t.putCellChecked y x ch fg bg attrs with
    | some t' => t'.fillColsChecked y rest ch fg bg attrs
    | none => none

/-- Checked `clearLoop`. -/
def clearLoopChecked (t : Vt100Terminal) (ys : List Nat) : Option Vt100Terminal :=
  match ys with
  | [] => some t
  | y :: rest =>
    match t.fillColsChecked y (List.range t.width) ' ' t.default_fg t.default_bg {} with
    | some t' => t'.clearLoopChecked rest
    | none => none

/-- Checked `clear`. -/
def clearChecked (t : Vt100Terminal) : Option Vt100Terminal := do
  let t1 ← t.clearLoopChecked (List.range t.height)
  some ({ t1 with cursor_x := 0, cursor_y := 0, saved_cursor := none } :
    Vt100Terminal).reset_attributes

/-- Checked `wrapScroll`; the scroll's four `Vec::remove(0)` calls panic on
an empty vector. -/
def wrapScrollChecked (t1 : Vt100Terminal) : Option Vt100Terminal :=
  let t2 :=
    if t1.width ≤ t1.cursor_x then { t1 with cursor_x := 0, cursor_y := t1.cursor_y + 1 }
    else t1
  if t2.height ≤ t2.cursor_y then
    if t2.buffer = [] ∨ t2.fg_colors = [] ∨ t2.bg_colors = [] ∨ t2.attributes = [] then
      none
    else
      some { t2 with
        buffer := t2.buffer.tail ++ [List.replicate t2.width ' ']
        fg_colors := t2.fg_colors.tail ++ [List.replicate t2.width ((255, 255, 255) : Color)]
        bg_colors := t2.bg_colors.tail ++ [List.replicate t2.width ((0, 0, 0) : Color)]
        attributes := t2.attributes.tail ++ [List.replicate t2.width ({} : CellAttributes)]
        cursor_y := t2.height - 1 }
  else some t2

/-- Checked `write_char`. -/
def write_charChecked (t : Vt100Terminal) (ch : Char) : Option Vt100Terminal := do
  let t1 ←
    if ch = '\n' then some { t with cursor_y := t.cursor_y + 1, cursor_x := 0 }
    else if ch = '\r' then some { t with cursor_x := 0 }
    else if ch = '\t' then some { t with cursor_x := ((t.cursor_x / 8 + 1) * 8) % U32 }
    else do
      let t' ←
        if t.cursor_x < t.width ∧ t.cursor_y < t.height then
          t.putCellChecked t.cursor_y t.cursor_x ch t.current_fg t.current_bg t.current_attrs
        else some t
      some { t' with cursor_x := t'.cursor_x + 1 }
  wrapScrollChecked t1

end Vt100Terminal

/-- Checked `i32::clamp`: Rust panics when `hi < lo`. -/
def clampI32Checked (v lo hi : Int) : Option Int :=
  if lo ≤ hi then some (clampI32 v lo hi) else none

namespace Vt100Terminal

/-- Checked `move_cursor_rel`; `new_x` is computed (and can panic) before
`new_y`, matching the statement order of the source. -/
def move_cursor_relChecked (t : Vt100Terminal) (dx dy : Int) : Option Vt100Terminal := do
  let new_x ← clampI32Checked (wrapI32 (u32AsI32 t.cursor_x + dx)) 0 (u32AsI32 (t.width - 1))
  let new_y ← clampI32Checked (wrapI32 (u32AsI32 t.cursor_y + dy)) 0 (u32AsI32 (t.height - 1))
  some { t with cursor_x := new_x.toNat, cursor_y := new_y.toNat }

/-- Checked `enter_alternate_screen`. -/
def enter_alternate_screenChecked (t : Vt100Terminal) : Option Vt100Terminal :=
  if t.in_alternate_screen then some t
  else
    let saved : SavedScreen :=
      { buffer := t.buffer, fg_colors := t.fg_colors, bg_colors := t.bg_colors,
        attributes := t.attributes, cursor_x := t.cursor_x, cursor_y := t.cursor_y }
    ({ t with alternate_screen := some saved, in_alternate_screen := true } :
      Vt100Terminal).clearChecked

/-- Checked `clear_line_from_cursor`. -/
def clear_line_from_cursorChecked (t : Vt100Terminal) : Option Vt100Terminal :=
  if t.height ≤ t.cursor_y then some t
  else
    t.fillColsChecked t.cursor_y (List.range' t.cursor_x (t.width - t.cursor_x)) ' '
      t.current_fg t.current_bg {}

/-- Checked `clearFromLoop`. -/
def clearFromLoopChecked (t : Vt100Terminal) (start_row : Nat) (ys : List Nat) :
    Option Vt100Terminal :=
  match ys with
  | [] => some t
  | y :: rest =>
    let start_col := if y = start_row then t.cursor_x else 0
    match t.fillColsChecked y (List.range' start_col (t.width - start_col)) ' '
        t.current_fg t.current_bg {} with
    | some t' => t'.clearFromLoopChecked start_row rest
    | none => none

/-- Checked `clear_from_cursor`. -/
def clear_from_cursorChecked (t : Vt100Terminal) : Option Vt100Terminal :=
  t.clearFromLoopChecked t.cursor_y (List.range' t.cursor_y (t.height - t.cursor_y))

end Vt100Terminal

/-- Checked `xterm_256_to_rgb` (constant-table indexing made explicit). -/
def xterm_256_to_rgbChecked (idx : Nat) : Option Color :=
  if idx ≤ 7 then ANSI_COLORS.get? idx
  else if idx ≤ 15 then ANSI_BRIGHT_COLORS.get? (idx - 8)
  else if idx ≤ 231 then
    let normalized := idx - 16
    do
      let r ← xtermScale.get? (normalized / 36)
      let g ← xtermScale.get? (normalized % 36 / 6)
      let b ← xtermScale.get? (normalized % 6)
      some ((r, g, b) : Color)
  else some ((8 + (idx - 232) * 10, 8 + (idx - 232) * 10, 8 + (idx - 232) * 10) : Color)

/-- Checked `sgrApplySimple` (constant-table indexing made explicit). -/
def sgrApplySimpleChecked (t : Vt100Terminal) (value : Nat) : Option Vt100Terminal :=
  if value = 0 then some t.reset_attributes
  else if value = 1 then some (t.set_bold true)
  else if value = 4 then some (t.set_underline true)
  else if value = 7 then some (t.set_inverse true)
  else if value = 22 then some (t.set_bold false)
  else if value = 24 then some (t.set_underline false)
  else if value = 27 then some (t.set_inverse false)
  else if 30 ≤ value ∧ value ≤ 37 then (ANSI_COLORS.get? (value - 30)).map t.set_fg_color
  else if 40 ≤ value ∧ value ≤ 47 then (ANSI_COLORS.get? (value - 40)).map t.set_bg_color
  else if 90 ≤ value ∧ value ≤ 97 then
    (ANSI_BRIGHT_COLORS.get? (value - 90)).map t.set_fg_color
  else if 100 ≤ value ∧ value ≤ 107 then
    (ANSI_BRIGHT_COLORS.get? (value - 100)).map t.set_bg_color
  else if value = 39 then some t.reset_fg
  else if value = 49 then some t.reset_bg
  else some t

/-- Checked `sgrLoop`. -/
def sgrLoopChecked (t : Vt100Terminal) : List Nat → Option Vt100Terminal
  | [] => some t
  | value :: rest =>
    if value = 38 ∨ value = 48 then
      match rest with
      | [] => some t
      | mode :: rest2 =>
        if mode = 2 then
          match rest2 with
          | r :: g :: b :: rest5 =>
            let color : Color := (clamp_u16_to_u8 r, clamp_u16_to_u8 g, clamp_u16_to_u8 b)
            sgrLoopChecked (if value = 38 then t.set_fg_color color else t.set_bg_color color)
              rest5
          | _ => some t
        else if mode = 5 then
          match rest2 with
          | n :: rest3 =>
            match xterm_256_to_rgbChecked (n % 256) with
            | some color =>
              sgrLoopChecked (if value = 38 then t.set_fg_color color else t.set_bg_color color)
                rest3
            | none => none
          | [] => some t
        else sgrLoopChecked t rest2
    else
      match sgrApplySimpleChecked t value with
      | some t' => sgrLoopChecked t' rest
      | none => none

/-- Checked `handle_sgr`. -/
def handle_sgrChecked (t : Vt100Terminal) (params : List (List Nat)) :
    Option Vt100Terminal :=
  if params = [] then some t.reset_attributes
  else
    let values := params.flatten
    if values = [] then some t.reset_attributes
    else sgrLoopChecked t values

/-- Checked `TerminalPerformer::execute`. -/
def performExecuteChecked (t : Vt100Terminal) (byte : Nat) : Option Vt100Terminal :=
  if byte = 0x0A then t.write_charChecked '\n'
  else if byte = 0x0D then t.write_charChecked '\r'
  else if byte = 0x09 then t.write_charChecked '\t'
  else if byte = 0x08 then some t.backspace
  else some t

/-- Checked `csi_dispatch`. -/
def csi_dispatchChecked (t : Vt100Terminal) (params : List (List Nat))
    (intermediates : List Nat) (action : Char) : Option Vt100Terminal :=
  let private_mode : Bool := intermediates.any (fun b => b == 0x3F)
  if action = 'H' ∨ action = 'f' then
    let row := param_or params 0 1 - 1
    let col := param_or params 1 1 - 1
    some (t.move_cursor col row)
  else if action = 'A' then t.move_cursor_relChecked 0 (-(param_or params 0 1 : Int))
  else if action = 'B' then t.move_cursor_relChecked 0 (param_or params 0 1 : Int)
  else if action = 'C' then t.move_cursor_relChecked (param_or params 0 1 : Int) 0
  else if action = 'D' then t.move_cursor_relChecked (-(param_or params 0 1 : Int)) 0
  else if action = 'J' then
    let mode := param_or params 0 0
    if mode = 0 then t.clear_from_cursorChecked
    else if mode = 2 ∨ mode = 3 then t.clearChecked
    else some t
  else if action = 'K' then t.clear_line_from_cursorChecked
  else if action = 'm' then handle_sgrChecked t params
  else if action = 's' then some t.save_cursor
  else if action = 'u' then some t.restore_cursor
  else if action = 'h' ∧ private_mode then
    let mode := param_or params 0 0
    if mode = 47 ∨ mode = 1047 ∨ mode = 1049 then t.enter_alternate_screenChecked
    else some t
  else if action = 'l' ∧ private_mode then
    let mode := param_or params 0 0
    if mode = 47 ∨ mode = 1047 ∨ mode = 1049 then some t.leave_alternate_screen
    else some t
  else some t

/-- Checked `esc_dispatch`. -/
def esc_dispatchChecked (t : Vt100Terminal) (intermediates : List Nat) (byte : Nat) :
    Option Vt100Terminal :=
  let _ := intermediates
  if byte = 0x37 then some t.save_cursor
  else if byte = 0x38 then some t.restore_cursor
  else if byte = 0x63 then t.clearChecked
  else some t

/-- Checked event dispatch: `none` exactly when handling the event would
panic. -/
def applyEventChecked (t : Vt100Terminal) : Event → Option Vt100Terminal
  | .print c => t.write_charChecked c
  | .execute b => performExecuteChecked t b
  | .csi p i a => csi_dispatchChecked t p i a
  | .esc i b => esc_dispatchChecked t i b

/-! ### Well-formedness -/

/-- Shape of a grid: `h` rows of `w` cells each. -/
def GridShape {α : Type} (m : List (List α)) (h w : Nat) : Prop :=
  m.length = h ∧ ∀ row ∈ m, row.length = w

theorem GridShape.replicate {α : Type} (h w : Nat) (v : α) :
    GridShape (List.replicate h (List.replicate w v)) h w := by
  refine ⟨List.length_replicate .., ?_⟩
  intro row hrow
  rw [List.eq_of_mem_replicate hrow]
  exact List.length_replicate ..

theorem GridShape.set {α : Type} {m : List (List α)} {h w : Nat}
    (hm : GridShape m h w) (y x : Nat) (v : α) : GridShape (setMat m y x v) h w := by
  unfold TuiHarness.setMat
  cases hrow : m.get? y with
  | none => exact hm
  | some row =>
    refine ⟨by rw [List.length_set]; exact hm.1, ?_⟩
    intro r hr
    rcases List.mem_or_eq_of_mem_set hr with h' | h'
    · exact hm.2 r h'
    · subst h'
      rw [List.length_set]
      exact hm.2 row (List.get?_mem hrow)

theorem GridShape.scroll {α : Type} {m : List (List α)} {h w : Nat}
    (hm : GridShape m h w) (v : α) (hh : 1 ≤ h) :
    GridShape (m.tail ++ [List.replicate w v]) h w := by
  constructor
  · rw [List.length_append, List.length_tail, hm.1]
    simp
    omega
  · intro r hr
    rcases List.mem_append.mp hr with h' | h'
    · exact hm.2 r (List.mem_of_mem_tail h')
    · rw [List.mem_singleton.mp h']
      exact List.length_replicate ..

/-- The cell at row `y`, column `x` of a grid. -/
def cellAt {α : Type} (m : List (List α)) (y x : Nat) : Option α :=
  (m.get? y).bind (fun row => row.get? x)

theorem get?_eq_some_getD {α : Type} (l : List α) (i : Nat) (d : α)
    (h : i < l.length) : l.get? i = some (l.getD i d) := by
  rw [List.getD_eq_get?]
  cases hg : l.get? i with
  | none => exact absurd (List.get?_eq_none.mp hg) (by omega)
  | some a => rfl

theorem cellAt_setMat_self {α : Type} {m : List (List α)} {h w : Nat}
    (hm : GridShape m h w) {y x : Nat} (hy : y < h) (hx : x < w) (v : α) :
    cellAt (setMat m y x v) y x = some v := by
  have hylen : y < m.length := by rw [hm.1]; exact hy
  cases hrow : m.get? y with
  | none => exact absurd (List.get?_eq_none.mp hrow) (by omega)
  | some row =>
    have hrlen : row.length = w := hm.2 row (List.get?_mem hrow)
    unfold TuiHarness.setMat cellAt
    rw [hrow, List.get?_set_eq, hrow]
    show (row.set x v).get? x = some v
    rw [List.get?_set_eq]
    cases hx2 : row.get? x with
    | none => exact absurd (List.get?_eq_none.mp hx2) (by omega)
    | some a => rfl

theorem cellAt_setMat_other {α : Type} (m : List (List α)) (y x i j : Nat) (v : α)
    (hij : i ≠ y ∨ j ≠ x) : cellAt (setMat m y x v) i j = cellAt m i j := by
  unfold TuiHarness.setMat
  cases hrow : m.get? y with
  | none => rfl
  | some row =>
    unfold cellAt
    by_cases hiy : i = y
    · subst hiy
      rcases hij with h' | h'
      · exact absurd rfl h'
      · rw [List.get?_set_eq, hrow]
        show (row.set x v).get? j = (some row).bind fun row => row.get? j
        rw [List.get?_set_ne _ _ (fun hh => h' hh.symm)]
        rfl
    · rw [List.get?_set_ne _ _ (fun hh => hiy hh.symm)]

/-- Well-formed saved screen relative to terminal dimensions. -/
def SavedScreen.WF (s : SavedScreen) (w h : Nat) : Prop :=
  GridShape s.buffer h w ∧ GridShape s.fg_colors h w ∧ GridShape s.bg_colors h w ∧
  GridShape s.attributes h w ∧ s.cursor_x < w ∧ s.cursor_y < h

/-- Well-formed terminal state: positive `u32` dimensions, grids of the
declared shape, cursor in range, and a well-formed alternate-screen slot. -/
def Vt100Terminal.WF (t : Vt100Terminal) : Prop :=
  1 ≤ t.width ∧ t.width < U32 ∧ 1 ≤ t.height ∧ t.height < U32 ∧
  GridShape t.buffer t.height t.width ∧ GridShape t.fg_colors t.height t.width ∧
  GridShape t.bg_colors t.height t.width ∧ GridShape t.attributes t.height t.width ∧
  t.cursor_x < t.width ∧ t.cursor_y < t.height ∧
  (∀ s, t.alternate_screen = some s → s.WF t.width t.height)

/-- One mutation step is in-spec: dimensions unchanged, defaults unchanged,
well-formedness preserved. -/
def StepOK (t t' : Vt100Terminal) : Prop :=
  t'.width = t.width ∧ t'.height = t.height ∧
  t'.default_fg = t.default_fg ∧ t'.default_bg = t.default_bg ∧
  (t.WF → t'.WF)

theorem StepOK.refl (t : Vt100Terminal) : StepOK t t :=
  ⟨rfl, rfl, rfl, rfl, id⟩

theorem StepOK.trans {a b c : Vt100Terminal} (h1 : StepOK a b) (h2 : StepOK b c) :
    StepOK a c :=
  ⟨h2.1.trans h1.1, h2.2.1.trans h1.2.1, h2.2.2.1.trans h1.2.2.1,
   h2.2.2.2.1.trans h1.2.2.2.1, fun hw => h2.2.2.2.2 (h1.2.2.2.2 hw)⟩

namespace Vt100Terminal

theorem putCell_stepOK (t : Vt100Terminal) (y x : Nat) (ch : Char) (fg bg : Color)
    (attrs : CellAttributes) : StepOK t (t.putCell y x ch fg bg attrs) := by
  refine ⟨rfl, rfl, rfl, rfl, fun hW => ?_⟩
  obtain ⟨h1, h2, h3, h4, hb, hf, hg, ha, hx, hy, hs⟩ := hW
  exact ⟨h1, h2, h3, h4, hb.set .., hf.set .., hg.set .., ha.set .., hx, hy, hs⟩

theorem fillCols_stepOK (t : Vt100Terminal) (y : Nat) (xs : List Nat) (ch : Char)
    (fg bg : Color) (attrs : CellAttributes) :
    StepOK t (t.fillCols y xs ch fg bg attrs) := by
  induction xs generalizing t with
  | nil => exact StepOK.refl t
  | cons x rest ih => exact (putCell_stepOK t y x ch fg bg attrs).trans (ih _)

theorem fillCols_eq_update (t : Vt100Terminal) (y : Nat) (xs : List Nat) (ch : Char)
    (fg bg : Color) (attrs : CellAttributes) :
    ∃ B F G A, t.fillCols y xs ch fg bg attrs =
      { t with buffer := B, fg_colors := F, bg_colors := G, attributes := A } := by
  induction xs generalizing t with
  | nil => exact ⟨_, _, _, _, rfl⟩
  | cons x rest ih =>
    obtain ⟨B, F, G, A, hEq⟩ := ih (t.putCell y x ch fg bg attrs)
    exact ⟨B, F, G, A, hEq⟩

theorem clearLoop_stepOK (t : Vt100Terminal) (ys : List Nat) :
    StepOK t (t.clearLoop ys) := by
  induction ys generalizing t with
  | nil => exact StepOK.refl t
  | cons y rest ih => exact (fillCols_stepOK ..).trans (ih _)

theorem clearLoop_eq_update (t : Vt100Terminal) (ys : List Nat) :
    ∃ B F G A, t.clearLoop ys =
      { t with buffer := B, fg_colors := F, bg_colors := G, attributes := A } := by
  induction ys generalizing t with
  | nil => exact ⟨_, _, _, _, rfl⟩
  | cons y rest ih =>
    obtain ⟨B1, F1, G1, A1, h1⟩ :=
      fillCols_eq_update t y (List.range t.width) ' ' t.default_fg t.default_bg {}
    obtain ⟨B, F, G, A, hEq⟩ := ih (t.fillCols y (List.range t.width) ' '
      t.default_fg t.default_bg {})
    refine ⟨B, F, G, A, ?_⟩
    rw [clearLoop, hEq, h1]

theorem clearFromLoop_stepOK (t : Vt100Terminal) (sr : Nat) (ys : List Nat) :
    StepOK t (t.clearFromLoop sr ys) := by
  induction ys generalizing t with
  | nil => exact StepOK.refl t
  | cons y rest ih => exact (fillCols_stepOK ..).trans (ih _)

theorem clearFromLoop_eq_update (t : Vt100Terminal) (sr : Nat) (ys : List Nat) :
    ∃ B F G A, t.clearFromLoop sr ys =
      { t with buffer := B, fg_colors := F, bg_colors := G, attributes := A } := by
  induction ys generalizing t with
  | nil => exact ⟨_, _, _, _, rfl⟩
  | cons y rest ih =>
    obtain ⟨B1, F1, G1, A1, h1⟩ := fillCols_eq_update t y
      (List.range' (if y = sr then t.cursor_x else 0)
        (t.width - (if y = sr then t.cursor_x else 0))) ' ' t.current_fg t.current_bg {}
    obtain ⟨B, F, G, A, hEq⟩ := ih _
    refine ⟨B, F, G, A, ?_⟩
    rw [clearFromLoop, hEq, h1]

theorem clear_eq_update (t : Vt100Terminal) :
    ∃ B F G A, t.clear =
      { t with
        buffer := B
        fg_colors := F
        bg_colors := G
        attributes := A
        cursor_x := 0
        cursor_y := 0
        saved_cursor := none
        current_fg := t.default_fg
        current_bg := t.default_bg
        current_attrs := {} } := by
  obtain ⟨B, F, G, A, hEq⟩ := clearLoop_eq_update t (List.range t.height)
  refine ⟨B, F, G, A, ?_⟩
  unfold clear
  rw [hEq]
  rfl

theorem clear_stepOK (t : Vt100Terminal) : StepOK t t.clear := by
  refine (clearLoop_stepOK t (List.range t.height)).trans ⟨rfl, rfl, rfl, rfl, fun hW => ?_⟩
  obtain ⟨h1, h2, h3, h4, hb, hf, hg, ha, hx, hy, hs⟩ := hW
  exact ⟨h1, h2, h3, h4, hb, hf, hg, ha, h1, h3, hs⟩

theorem move_cursor_stepOK (t : Vt100Terminal) (x y : Nat) :
    StepOK t (t.move_cursor x y) := by
  refine ⟨rfl, rfl, rfl, rfl, fun hW => ?_⟩
  obtain ⟨h1, h2, h3, h4, hb, hf, hg, ha, hx, hy, hs⟩ := hW
  exact ⟨h1, h2, h3, h4, hb, hf, hg, ha, by simp [move_cursor]; omega,
    by simp [move_cursor]; omega, hs⟩

theorem move_cursor_rel_stepOK (t : Vt100Terminal) (dx dy : Int) :
    StepOK t (t.move_cursor_rel dx dy) := by
  refine ⟨rfl, rfl, rfl, rfl, fun hW => ?_⟩
  obtain ⟨h1, h2, h3, h4, hb, hf, hg, ha, hx, hy, hs⟩ := hW
  have hclamp : ∀ (v : Int) (dim c : Nat), 1 ≤ dim → dim < U32 →
      (clampI32 (wrapI32 (u32AsI32 c + v)) 0 (u32AsI32 (dim - 1))).toNat < dim := by
    intro v dim c hdim hdimU
    unfold clampI32 u32AsI32
    have hmod : (dim - 1) % U32 = dim - 1 := Nat.mod_eq_of_lt (by omega)
    split_ifs <;> simp_all <;> omega
  exact ⟨h1, h2, h3, h4, hb, hf, hg, ha, hclamp dx t.width t.cursor_x h1 h2,
    hclamp dy t.height t.cursor_y h3 h4, hs⟩

theorem save_cursor_stepOK (t : Vt100Terminal) : StepOK t t.save_cursor := by
  refine ⟨rfl, rfl, rfl, rfl, fun hW => ?_⟩
  obtain ⟨h1, h2, h3, h4, hb, hf, hg, ha, hx, hy, hs⟩ := hW
  exact ⟨h1, h2, h3, h4, hb, hf, hg, ha, hx, hy, hs⟩

theorem restore_cursor_stepOK (t : Vt100Terminal) : StepOK t t.restore_cursor := by
  unfold restore_cursor
  cases hsc : t.saved_cursor with
  | none => exact StepOK.refl t
  | some p =>
    obtain ⟨x, y⟩ := p
    refine ⟨rfl, rfl, rfl, rfl, fun hW => ?_⟩
    obtain ⟨h1, h2, h3, h4, hb, hf, hg, ha, hx, hy, hs⟩ := hW
    exact ⟨h1, h2, h3, h4, hb, hf, hg, ha, by simp; omega, by simp; omega, hs⟩

theorem backspace_stepOK (t : Vt100Terminal) : StepOK t t.backspace := by
  unfold backspace
  split_ifs with h
  · refine ⟨rfl, rfl, rfl, rfl, fun hW => ?_⟩
    obtain ⟨h1, h2, h3, h4, hb, hf, hg, ha, hx, hy, hs⟩ := hW
    exact ⟨h1, h2, h3, h4, hb, hf, hg, ha, by simp; omega, hy, hs⟩
  · exact StepOK.refl t

theorem reset_attributes_stepOK (t : Vt100Terminal) : StepOK t t.reset_attributes := by
  refine ⟨rfl, rfl, rfl, rfl, fun hW => ?_⟩
  obtain ⟨h1, h2, h3, h4, hb, hf, hg, ha, hx, hy, hs⟩ := hW
  exact ⟨h1, h2, h3, h4, hb, hf, hg, ha, hx, hy, hs⟩

end Vt100Terminal

/-- Well-formedness without the cursor-range conjuncts: what survives the
character stage of `write_char` before the wrap and scroll stages repair the
cursor. -/
def WFnc (t : Vt100Terminal) : Prop :=
  1 ≤ t.width ∧ t.width < U32 ∧ 1 ≤ t.height ∧ t.height < U32 ∧
  GridShape t.buffer t.height t.width ∧ GridShape t.fg_colors t.height t.width ∧
  GridShape t.bg_colors t.height t.width ∧ GridShape t.attributes t.height t.width ∧
  (∀ s, t.alternate_screen = some s → s.WF t.width t.height)

namespace Vt100Terminal

theorem wrapScroll_spec (t1 : Vt100Terminal) :
    (t1.wrapScroll.width = t1.width ∧ t1.wrapScroll.height = t1.height ∧
     t1.wrapScroll.default_fg = t1.default_fg ∧ t1.wrapScroll.default_bg = t1.default_bg) ∧
    (WFnc t1 → t1.wrapScroll.WF) := by
  unfold wrapScroll
  dsimp only
  refine ⟨?_, fun hW => ?_⟩
  · split_ifs <;> exact ⟨rfl, rfl, rfl, rfl⟩
  · obtain ⟨h1, h2, h3, h4, hb, hf, hg, ha, hs⟩ := hW
    split_ifs with hwrap hscroll hscroll2 <;>
      (refine ⟨?_, ?_, ?_, ?_, ?_, ?_, ?_, ?_, ?_, ?_, ?_⟩ <;> dsimp only at * <;>
        first
          | exact h1 | exact h2 | exact h3 | exact h4
          | exact hb.scroll ' ' h3 | exact hf.scroll _ h3
          | exact hg.scroll _ h3 | exact ha.scroll _ h3
          | exact hb | exact hf | exact hg | exact ha
          | exact hs
          | omega)

theorem write_char_stepOK (t : Vt100Terminal) (ch : Char) :
    StepOK t (t.write_char ch) := by
  unfold write_char
  dsimp only
  split_ifs with hn hr ht hguard <;>
    (obtain ⟨⟨hw, hh, hdf, hdb⟩, hWFimp⟩ := wrapScroll_spec _
     refine ⟨hw.trans rfl, hh.trans rfl, hdf.trans rfl, hdb.trans rfl, fun hW => ?_⟩
     obtain ⟨h1, h2, h3, h4, hb, hf, hg, ha, hx, hy, hs⟩ := hW
     refine hWFimp ⟨h1, h2, h3, h4, ?_, ?_, ?_, ?_, hs⟩ <;>
       first
         | exact hb | exact hf | exact hg | exact ha
         | exact hb.set .. | exact hf.set .. | exact hg.set .. | exact ha.set ..)

theorem enter_alternate_screen_stepOK (t : Vt100Terminal) :
    StepOK t t.enter_alternate_screen := by
  unfold enter_alternate_screen
  split_ifs with h
  · exact StepOK.refl t
  · dsimp only
    have step1 : StepOK t { t with
        alternate_screen := some
          { buffer := t.buffer, fg_colors := t.fg_colors, bg_colors := t.bg_colors,
            attributes := t.attributes, cursor_x := t.cursor_x, cursor_y := t.cursor_y }
        in_alternate_screen := true } := by
      refine ⟨rfl, rfl, rfl, rfl, fun hW => ?_⟩
      obtain ⟨h1, h2, h3, h4, hb, hf, hg, ha, hx, hy, hs⟩ := hW
      refine ⟨h1, h2, h3, h4, hb, hf, hg, ha, hx, hy, fun s hsEq => ?_⟩
      cases Option.some.inj hsEq
      exact ⟨hb, hf, hg, ha, hx, hy⟩
    exact step1.trans (clear_stepOK _)

theorem leave_alternate_screen_stepOK (t : Vt100Terminal) :
    StepOK t t.leave_alternate_screen := by
  unfold leave_alternate_screen
  split_ifs with h
  · cases halt : t.alternate_screen with
    | none =>
      refine ⟨rfl, rfl, rfl, rfl, fun hW => ?_⟩
      obtain ⟨h1, h2, h3, h4, hb, hf, hg, ha, hx, hy, hs⟩ := hW
      exact ⟨h1, h2, h3, h4, hb, hf, hg, ha, hx, hy, fun s hsEq => by cases hsEq⟩
    | some saved =>
      refine ⟨rfl, rfl, rfl, rfl, fun hW => ?_⟩
      obtain ⟨h1, h2, h3, h4, hb, hf, hg, ha, hx, hy, hs⟩ := hW
      obtain ⟨sb, sf, sg, sa, sx, sy⟩ := hs saved halt
      exact ⟨h1, h2, h3, h4, sb, sf, sg, sa, sx, sy, fun s hsEq => by cases hsEq⟩
  · exact StepOK.refl t

/-- `t'` differs from `t` in at most the pen fields. -/
def PenOnly (t t' : Vt100Terminal) : Prop :=
  ∃ fg bg attrs, t' =
    { t with current_fg := fg, current_bg := bg, current_attrs := attrs }

theorem PenOnly.same (t : Vt100Terminal) : PenOnly t t := ⟨_, _, _, rfl⟩

theorem PenOnly.ite_cong (t : Vt100Terminal) (c : Prop) [Decidable c]
    {A B : Vt100Terminal} (hA : PenOnly t A) (hB : PenOnly t B) :
    PenOnly t (if c then A else B) := by
  by_cases h : c
  · rw [if_pos h]; exact hA
  · rw [if_neg h]; exact hB

theorem PenOnly.comp {a b c : Vt100Terminal} (h1 : PenOnly a b) (h2 : PenOnly b c) :
    PenOnly a c := by
  obtain ⟨f1, g1, a1, e1⟩ := h1
  obtain ⟨f2, g2, a2, e2⟩ := h2
  subst e1
  exact ⟨f2, g2, a2, e2⟩

/-- Updates that only touch the pen are always in-spec. -/
theorem PenOnly.stepOK {t t' : Vt100Terminal} (h : PenOnly t t') : StepOK t t' := by
  obtain ⟨fg, bg, attrs, hEq⟩ := h
  subst hEq
  exact ⟨rfl, rfl, rfl, rfl, fun hW => hW⟩

theorem PenOnly.set_color_ite (t : Vt100Terminal) (v : Nat) (color : Color) :
    PenOnly t (if v = 38 then t.set_fg_color color else t.set_bg_color color) :=
  PenOnly.ite_cong _ _ ⟨_, _, _, rfl⟩ ⟨_, _, _, rfl⟩

theorem sgrApplySimple_pen_only (t : Vt100Terminal) (value : Nat) :
    PenOnly t (sgrApplySimple t value) :=
  .ite_cong _ _ ⟨_, _, _, rfl⟩ <| .ite_cong _ _ ⟨_, _, _, rfl⟩ <|
  .ite_cong _ _ ⟨_, _, _, rfl⟩ <| .ite_cong _ _ ⟨_, _, _, rfl⟩ <|
  .ite_cong _ _ ⟨_, _, _, rfl⟩ <| .ite_cong _ _ ⟨_, _, _, rfl⟩ <|
  .ite_cong _ _ ⟨_, _, _, rfl⟩ <| .ite_cong _ _ ⟨_, _, _, rfl⟩ <|
  .ite_cong _ _ ⟨_, _, _, rfl⟩ <| .ite_cong _ _ ⟨_, _, _, rfl⟩ <|
  .ite_cong _ _ ⟨_, _, _, rfl⟩ <| .ite_cong _ _ ⟨_, _, _, rfl⟩ <|
  .ite_cong _ _ ⟨_, _, _, rfl⟩ (PenOnly.same t)

theorem sgrLoop_pen_only (t : Vt100Terminal) (values : List Nat) :
    PenOnly t (sgrLoop t values) := by
  induction t, values using sgrLoop.induct with
  | case1 t => exact ⟨_, _, _, rfl⟩
  | case2 t value h38 =>
    rcases h38 with h | h <;> subst h <;> exact ⟨_, _, _, rfl⟩
  | case3 t value h38 r g b rest5 color ih =>
    rw [sgrLoop.eq_def]
    split
    next xs heq => cases heq
    next v rest' heq =>
      cases heq
      rw [if_pos h38]
      split
      next heq2 => cases heq2
      next m r2 heq2 =>
        cases heq2
        rw [if_pos rfl]
        split
        next r' g' b' rest5' heq3 =>
          cases heq3
          exact (PenOnly.set_color_ite ..).comp ih
        next hno x heq3 =>
          exact (heq3 r g b rest5 rfl).elim
  | case4 t value h38 rest2 hno =>
    rcases rest2 with _ | ⟨a, _ | ⟨b, _ | ⟨c, rest5⟩⟩⟩
    · rcases h38 with h | h <;> subst h <;> exact ⟨_, _, _, rfl⟩
    · rcases h38 with h | h <;> subst h <;> exact ⟨_, _, _, rfl⟩
    · rcases h38 with h | h <;> subst h <;> exact ⟨_, _, _, rfl⟩
    · exact absurd rfl (hno a b c rest5)
  | case5 t value h38 n rest3 color hm ih =>
    rw [sgrLoop.eq_def]
    split
    next xs heq => cases heq
    next v rest' heq =>
      cases heq
      rw [if_pos h38]
      split
      next heq2 => cases heq2
      next m r2 heq2 =>
        cases heq2
        rw [if_neg hm, if_pos rfl]
        split
        next n' rest3' heq3 =>
          cases heq3
          exact (PenOnly.set_color_ite ..).comp ih
        next heq3 => cases heq3
  | case6 t value h38 hm =>
    rcases h38 with h | h <;> subst h <;> exact ⟨_, _, _, rfl⟩
  | case7 t value h38 mode rest2 hm2 hm5 ih =>
    rw [sgrLoop.eq_def]
    split
    next xs heq => cases heq
    next v rest' heq =>
      cases heq
      rw [if_pos h38]
      split
      next heq2 => cases heq2
      next m r2 heq2 =>
        cases heq2
        rw [if_neg hm2, if_neg hm5]
        exact ih
  | case8 t value rest h38 ih =>
    rw [sgrLoop.eq_def]
    split
    next xs heq => cases heq
    next v rest' heq =>
      cases heq
      rw [if_neg h38]
      exact (sgrApplySimple_pen_only t value).comp ih

theorem sgrLoop_stepOK (t : Vt100Terminal) (values : List Nat) :
    StepOK t (sgrLoop t values) :=
  (sgrLoop_pen_only t values).stepOK

theorem clear_line_from_cursor_stepOK (t : Vt100Terminal) :
    StepOK t t.clear_line_from_cursor := by
  unfold clear_line_from_cursor
  split_ifs with h
  · exact StepOK.refl t
  · exact fillCols_stepOK ..

theorem clear_from_cursor_stepOK (t : Vt100Terminal) :
    StepOK t t.clear_from_cursor := by
  unfold clear_from_cursor
  exact clearFromLoop_stepOK ..

end Vt100Terminal

theorem handle_sgr_stepOK (t : Vt100Terminal) (params : List (List Nat)) :
    StepOK t (handle_sgr t params) := by
  unfold handle_sgr
  dsimp only
  split_ifs <;>
    first
      | exact Vt100Terminal.reset_attributes_stepOK t
      | exact Vt100Terminal.sgrLoop_stepOK ..

theorem performExecute_stepOK (t : Vt100Terminal) (byte : Nat) :
    StepOK t (performExecute t byte) := by
  unfold performExecute
  by_cases h1 : byte = 0x0A
  · rw [if_pos h1]; exact Vt100Terminal.write_char_stepOK ..
  rw [if_neg h1]
  by_cases h2 : byte = 0x0D
  · rw [if_pos h2]; exact Vt100Terminal.write_char_stepOK ..
  rw [if_neg h2]
  by_cases h3 : byte = 0x09
  · rw [if_pos h3]; exact Vt100Terminal.write_char_stepOK ..
  rw [if_neg h3]
  by_cases h4 : byte = 0x08
  · rw [if_pos h4]; exact Vt100Terminal.backspace_stepOK ..
  rw [if_neg h4]
  exact StepOK.refl t

theorem csi_dispatch_stepOK (t : Vt100Terminal) (params : List (List Nat))
    (intermediates : List Nat) (action : Char) :
    StepOK t (csi_dispatch t params intermediates action) := by
  unfold csi_dispatch
  dsimp only
  by_cases h1 : action = 'H' ∨ action = 'f'
  · rw [if_pos h1]; exact Vt100Terminal.move_cursor_stepOK ..
  rw [if_neg h1]
  by_cases h2 : action = 'A'
  · rw [if_pos h2]; exact Vt100Terminal.move_cursor_rel_stepOK ..
  rw [if_neg h2]
  by_cases h3 : action = 'B'
  · rw [if_pos h3]; exact Vt100Terminal.move_cursor_rel_stepOK ..
  rw [if_neg h3]
  by_cases h4 : action = 'C'
  · rw [if_pos h4]; exact Vt100Terminal.move_cursor_rel_stepOK ..
  rw [if_neg h4]
  by_cases h5 : action = 'D'
  · rw [if_pos h5]; exact Vt100Terminal.move_cursor_rel_stepOK ..
  rw [if_neg h5]
  by_cases h6 : action = 'J'
  · rw [if_pos h6]
    by_cases hm0 : param_or params 0 0 = 0
    · rw [if_pos hm0]; exact Vt100Terminal.clear_from_cursor_stepOK ..
    rw [if_neg hm0]
    by_cases hm23 : param_or params 0 0 = 2 ∨ param_or params 0 0 = 3
    · rw [if_pos hm23]; exact Vt100Terminal.clear_stepOK ..
    rw [if_neg hm23]
    exact StepOK.refl t
  rw [if_neg h6]
  by_cases h7 : action = 'K'
  · rw [if_pos h7]; exact Vt100Terminal.clear_line_from_cursor_stepOK ..
  rw [if_neg h7]
  by_cases h8 : action = 'm'
  · rw [if_pos h8]; exact handle_sgr_stepOK ..
  rw [if_neg h8]
  by_cases h9 : action = 's'
  · rw [if_pos h9]; exact Vt100Terminal.save_cursor_stepOK ..
  rw [if_neg h9]
  by_cases h10 : action = 'u'
  · rw [if_pos h10]; exact Vt100Terminal.restore_cursor_stepOK ..
  rw [if_neg h10]
  by_cases h11 : action = 'h' ∧ intermediates.any (fun b => b == 0x3F) = true
  · rw [if_pos h11]
    by_cases hm : param_or params 0 0 = 47 ∨ param_or params 0 0 = 1047 ∨
        param_or params 0 0 = 1049
    · rw [if_pos hm]; exact Vt100Terminal.enter_alternate_screen_stepOK ..
    rw [if_neg hm]
    exact StepOK.refl t
  rw [if_neg h11]
  by_cases h12 : action = 'l' ∧ intermediates.any (fun b => b == 0x3F) = true
  · rw [if_pos h12]
    by_cases hm : param_or params 0 0 = 47 ∨ param_or params 0 0 = 1047 ∨
        param_or params 0 0 = 1049
    · rw [if_pos hm]; exact Vt100Terminal.leave_alternate_screen_stepOK ..
    rw [if_neg hm]
    exact StepOK.refl t
  rw [if_neg h12]
  exact StepOK.refl t

theorem esc_dispatch_stepOK (t : Vt100Terminal) (intermediates : List Nat) (byte : Nat) :
    StepOK t (esc_dispatch t intermediates byte) := by
  unfold esc_dispatch
  dsimp only
  by_cases h1 : byte = 0x37
  · rw [if_pos h1]; exact Vt100Terminal.save_cursor_stepOK ..
  rw [if_neg h1]
  by_cases h2 : byte = 0x38
  · rw [if_pos h2]; exact Vt100Terminal.restore_cursor_stepOK ..
  rw [if_neg h2]
  by_cases h3 : byte = 0x63
  · rw [if_pos h3]; exact Vt100Terminal.clear_stepOK ..
  rw [if_neg h3]
  exact StepOK.refl t

theorem applyEvent_stepOK (t : Vt100Terminal) (e : Event) :
    StepOK t (applyEvent t e) := by
  cases e with
  | print c => exact Vt100Terminal.write_char_stepOK ..
  | execute b => exact performExecute_stepOK ..
  | csi p i a => exact csi_dispatch_stepOK ..
  | esc i b => exact esc_dispatch_stepOK t i b

theorem applyEvents_stepOK (t : Vt100Terminal) (es : List Event) :
    StepOK t (applyEvents t es) := by
  induction es generalizing t with
  | nil => exact StepOK.refl t
  | cons e rest ih => exact (applyEvent_stepOK t e).trans (ih _)

theorem new_WF (w h : Nat) (hw1 : 1 ≤ w) (hw2 : w < U32) (hh1 : 1 ≤ h)
    (hh2 : h < U32) : (Vt100Terminal.new w h).WF := by
  refine ⟨hw1, hw2, hh1, hh2, GridShape.replicate .., GridShape.replicate ..,
    GridShape.replicate .., GridShape.replicate .., hw1, hh1, fun s hsEq => ?_⟩
  cases hsEq

/-! ### Frame lemmas for the erase operations -/

theorem clear_from_cursor_frame (t : Vt100Terminal) :
    t.clear_from_cursor.current_fg = t.current_fg ∧
    t.clear_from_cursor.current_bg = t.current_bg ∧
    t.clear_from_cursor.current_attrs = t.current_attrs ∧
    t.clear_from_cursor.saved_cursor = t.saved_cursor := by
  obtain ⟨B, F, G, A, hEq⟩ := Vt100Terminal.clearFromLoop_eq_update t t.cursor_y
    (List.range' t.cursor_y (t.height - t.cursor_y))
  unfold Vt100Terminal.clear_from_cursor
  rw [hEq]
  exact ⟨rfl, rfl, rfl, rfl⟩

theorem clear_line_from_cursor_frame (t : Vt100Terminal) :
    t.clear_line_from_cursor.current_fg = t.current_fg ∧
    t.clear_line_from_cursor.current_bg = t.current_bg ∧
    t.clear_line_from_cursor.current_attrs = t.current_attrs ∧
    t.clear_line_from_cursor.saved_cursor = t.saved_cursor := by
  unfold Vt100Terminal.clear_line_from_cursor
  by_cases h : t.height ≤ t.cursor_y
  · rw [if_pos h]
    exact ⟨rfl, rfl, rfl, rfl⟩
  · rw [if_neg h]
    obtain ⟨B, F, G, A, hEq⟩ := Vt100Terminal.fillCols_eq_update t t.cursor_y
      (List.range' t.cursor_x (t.width - t.cursor_x)) ' ' t.current_fg t.current_bg {}
    rw [hEq]
    exact ⟨rfl, rfl, rfl, rfl⟩

/-! ### Claim theorems -/

/-- Claim C1: for every cols ≥ 1 and rows ≥ 1 (`u32` dimensions) and every
sequence of performer events fed to a fresh emulator, the cursor column stays
in `[0, cols)`, the cursor row stays in `[0, rows)`, and the character, color
and attribute grids still hold exactly rows lists of exactly cols cells. -/
theorem cursor_and_grid_invariant (w h : Nat) (hw1 : 1 ≤ w) (hw2 : w < U32)
    (hh1 : 1 ≤ h) (hh2 : h < U32) (events : List Event) :
    (applyEvents (Vt100Terminal.new w h) events).cursor_x < w ∧
    (applyEvents (Vt100Terminal.new w h) events).cursor_y < h ∧
    (applyEvents (Vt100Terminal.new w h) events).buffer.length = h ∧
    (∀ row ∈ (applyEvents (Vt100Terminal.new w h) events).buffer, row.length = w) ∧
    (applyEvents (Vt100Terminal.new w h) events).fg_colors.length = h ∧
    (∀ row ∈ (applyEvents (Vt100Terminal.new w h) events).fg_colors, row.length = w) ∧
    (applyEvents (Vt100Terminal.new w h) events).bg_colors.length = h ∧
    (∀ row ∈ (applyEvents (Vt100Terminal.new w h) events).bg_colors, row.length = w) ∧
    (applyEvents (Vt100Terminal.new w h) events).attributes.length = h ∧
    (∀ row ∈ (applyEvents (Vt100Terminal.new w h) events).attributes, row.length = w) := by
  obtain ⟨hdw, hdh, _, _, hWFimp⟩ := applyEvents_stepOK (Vt100Terminal.new w h) events
  have hww : (applyEvents (Vt100Terminal.new w h) events).width = w := hdw
  have hhh : (applyEvents (Vt100Terminal.new w h) events).height = h := hdh
  obtain ⟨_, _, _, _, hb, hf, hg, ha, hx, hy, _⟩ := hWFimp (new_WF w h hw1 hw2 hh1 hh2)
  rw [hww] at hx
  rw [hhh] at hy
  rw [hww, hhh] at hb hf hg ha
  exact ⟨hx, hy, hb.1, hb.2, hf.1, hf.2, hg.1, hg.2, ha.1, ha.2⟩

/-- Witness for C1 at a concrete size and event list. -/
theorem cursor_and_grid_invariant_witness :
    (applyEvents (Vt100Terminal.new 3 2) (printEvents "ABCDEFG")).cursor_x < 3 ∧
    (applyEvents (Vt100Terminal.new 3 2) (printEvents "ABCDEFG")).cursor_y < 2 := by
  have h := cursor_and_grid_invariant 3 2 (by decide) (by norm_num [U32])
    (by decide) (by norm_num [U32]) (printEvents "ABCDEFG")
  exact ⟨h.1, h.2.1⟩

/-- Claim C4: a fresh 3×2 emulator fed the printable bytes `"ABCDEFG"` wraps
then scrolls, ending with rows `"DEF"` and `"G  "` and the cursor at column
1, row 1. -/
theorem wrap_scroll_abcdefg :
    (applyEvents (Vt100Terminal.new 3 2) (printEvents "ABCDEFG")).buffer =
      [['D', 'E', 'F'], ['G', ' ', ' ']] ∧
    (applyEvents (Vt100Terminal.new 3 2) (printEvents "ABCDEFG")).cursor_x = 1 ∧
    (applyEvents (Vt100Terminal.new 3 2) (printEvents "ABCDEFG")).cursor_y = 1 := by
  decide

/-- Claim C10: CSI J with mode 2 or 3 and `ESC c` (all routed to
`Vt100Terminal::clear`) additionally reset the pen to the defaults, empty the
saved-cursor slot, and home the cursor, whereas CSI J mode 0 and CSI K leave
the pen and the saved-cursor slot unchanged. -/
theorem clear_resets_pen_and_saved_cursor (st : Vt100Terminal) :
    ((applyEvent st (Event.csi [[2]] [] 'J')).current_fg = st.default_fg ∧
     (applyEvent st (Event.csi [[2]] [] 'J')).current_bg = st.default_bg ∧
     (applyEvent st (Event.csi [[2]] [] 'J')).current_attrs = {} ∧
     (applyEvent st (Event.csi [[2]] [] 'J')).saved_cursor = none ∧
     (applyEvent st (Event.csi [[2]] [] 'J')).cursor_x = 0 ∧
     (applyEvent st (Event.csi [[2]] [] 'J')).cursor_y = 0) ∧
    ((applyEvent st (Event.csi [[3]] [] 'J')).current_fg = st.default_fg ∧
     (applyEvent st (Event.csi [[3]] [] 'J')).current_bg = st.default_bg ∧
     (applyEvent st (Event.csi [[3]] [] 'J')).current_attrs = {} ∧
     (applyEvent st (Event.csi [[3]] [] 'J')).saved_cursor = none) ∧
    ((applyEvent st (Event.esc [] 0x63)).current_fg = st.default_fg ∧
     (applyEvent st (Event.esc [] 0x63)).current_bg = st.default_bg ∧
     (applyEvent st (Event.esc [] 0x63)).current_attrs = {} ∧
     (applyEvent st (Event.esc [] 0x63)).saved_cursor = none) ∧
    ((applyEvent st (Event.csi [] [] 'J')).current_fg = st.current_fg ∧
     (applyEvent st (Event.csi [] [] 'J')).current_bg = st.current_bg ∧
     (applyEvent st (Event.csi [] [] 'J')).current_attrs = st.current_attrs ∧
     (applyEvent st (Event.csi [] [] 'J')).saved_cursor = st.saved_cursor) ∧
    ((applyEvent st (Event.csi [] [] 'K')).current_fg = st.current_fg ∧
     (applyEvent st (Event.csi [] [] 'K')).current_bg = st.current_bg ∧
     (applyEvent st (Event.csi [] [] 'K')).current_attrs = st.current_attrs ∧
     (applyEvent st (Event.csi [] [] 'K')).saved_cursor = st.saved_cursor) := by
  have h2 : applyEvent st (Event.csi [[2]] [] 'J') = st.clear := rfl
  have h3 : applyEvent st (Event.csi [[3]] [] 'J') = st.clear := rfl
  have hc : applyEvent st (Event.esc [] 0x63) = st.clear := rfl
  have h0 : applyEvent st (Event.csi [] [] 'J') = st.clear_from_cursor := rfl
  have hK : applyEvent st (Event.csi [] [] 'K') = st.clear_line_from_cursor := rfl
  obtain ⟨B, F, G, A, hclear⟩ := Vt100Terminal.clear_eq_update st
  obtain ⟨f1, f2, f3, f4⟩ := clear_from_cursor_frame st
  obtain ⟨k1, k2, k3, k4⟩ := clear_line_from_cursor_frame st
  rw [h2, h3, hc, h0, hK, hclear]
  exact ⟨⟨rfl, rfl, rfl, rfl, rfl, rfl⟩, ⟨rfl, rfl, rfl, rfl⟩, ⟨rfl, rfl, rfl, rfl⟩,
    ⟨f1, f2, f3, f4⟩, ⟨k1, k2, k3, k4⟩⟩

/-- Counterexample to claim C5 as stated for *every* state: in a state that
is already in the alternate screen (reached here by printing `A` and entering
via mode 1049), the mode-set is a no-op and the mode-reset restores the
*saved* screen, so "enter then leave" does not reproduce the pre-enter grid. -/
theorem alt_roundtrip_counterexample :
    (applyEvents
        (applyEvents (Vt100Terminal.new 2 2)
          [Event.print 'A', Event.csi [[1049]] [0x3F] 'h'])
        [Event.csi [[1049]] [0x3F] 'h', Event.csi [[1049]] [0x3F] 'l']).buffer ≠
      (applyEvents (Vt100Terminal.new 2 2)
        [Event.print 'A', Event.csi [[1049]] [0x3F] 'h']).buffer := by
  decide

/-- Claim C5 (amended: the round trip is guaranteed from states not already
in the alternate screen): setting DEC private mode 47/1047/1049 and then
resetting it, with no writes in between, restores the grid contents
(characters, per-cell colors and attributes) and the cursor position
exactly; setting the mode while already in the alternate screen is a no-op,
and resetting it while not in the alternate screen is a no-op. -/
theorem alternate_screen_roundtrip (st : Vt100Terminal) (m : Nat)
    (hm : m = 47 ∨ m = 1047 ∨ m = 1049) :
    (st.in_alternate_screen = false →
      (applyEvents st [Event.csi [[m]] [0x3F] 'h',
          Event.csi [[m]] [0x3F] 'l']).buffer = st.buffer ∧
      (applyEvents st [Event.csi [[m]] [0x3F] 'h',
          Event.csi [[m]] [0x3F] 'l']).fg_colors = st.fg_colors ∧
      (applyEvents st [Event.csi [[m]] [0x3F] 'h',
          Event.csi [[m]] [0x3F] 'l']).bg_colors = st.bg_colors ∧
      (applyEvents st [Event.csi [[m]] [0x3F] 'h',
          Event.csi [[m]] [0x3F] 'l']).attributes = st.attributes ∧
      (applyEvents st [Event.csi [[m]] [0x3F] 'h',
          Event.csi [[m]] [0x3F] 'l']).cursor_x = st.cursor_x ∧
      (applyEvents st [Event.csi [[m]] [0x3F] 'h',
          Event.csi [[m]] [0x3F] 'l']).cursor_y = st.cursor_y) ∧
    (st.in_alternate_screen = true →
      applyEvent st (Event.csi [[m]] [0x3F] 'h') = st) ∧
    (st.in_alternate_screen = false →
      applyEvent st (Event.csi [[m]] [0x3F] 'l') = st) := by
  rcases hm with rfl | rfl | rfl <;>
    (refine ⟨fun hin => ?_, fun hin => ?_, fun hin => ?_⟩
     · have henter : st.enter_alternate_screen =
           ({ st with
              alternate_screen := some
                { buffer := st.buffer, fg_colors := st.fg_colors,
                  bg_colors := st.bg_colors, attributes := st.attributes,
                  cursor_x := st.cursor_x, cursor_y := st.cursor_y }
              in_alternate_screen := true } : Vt100Terminal).clear := by
         unfold Vt100Terminal.enter_alternate_screen
         rw [if_neg (by rw [hin]; exact Bool.false_ne_true)]
       obtain ⟨B, F, G, A, hclear⟩ := Vt100Terminal.clear_eq_update
         ({ st with
            alternate_screen := some
              { buffer := st.buffer, fg_colors := st.fg_colors,
                bg_colors := st.bg_colors, attributes := st.attributes,
                cursor_x := st.cursor_x, cursor_y := st.cursor_y }
            in_alternate_screen := true } : Vt100Terminal)
       show (st.enter_alternate_screen.leave_alternate_screen).buffer = st.buffer ∧
         (st.enter_alternate_screen.leave_alternate_screen).fg_colors = st.fg_colors ∧
         (st.enter_alternate_screen.leave_alternate_screen).bg_colors = st.bg_colors ∧
         (st.enter_alternate_screen.leave_alternate_screen).attributes = st.attributes ∧
         (st.enter_alternate_screen.leave_alternate_screen).cursor_x = st.cursor_x ∧
         (st.enter_alternate_screen.leave_alternate_screen).cursor_y = st.cursor_y
       rw [henter, hclear]
       exact ⟨rfl, rfl, rfl, rfl, rfl, rfl⟩
     · show st.enter_alternate_screen = st
       unfold Vt100Terminal.enter_alternate_screen
       rw [if_pos hin]
     · show st.leave_alternate_screen = st
       unfold Vt100Terminal.leave_alternate_screen
       rw [if_neg (by rw [hin]; exact Bool.false_ne_true)])

/-- Witness for C5: the round trip through mode 1049 on a fresh 2×2 emulator
restores its (blank) character grid. -/
theorem alternate_screen_roundtrip_witness :
    (applyEvents (Vt100Terminal.new 2 2) [Event.csi [[1049]] [0x3F] 'h',
        Event.csi [[1049]] [0x3F] 'l']).buffer = (Vt100Terminal.new 2 2).buffer :=
  ((alternate_screen_roundtrip (Vt100Terminal.new 2 2) 1049
    (Or.inr (Or.inr rfl))).1 rfl).1

set_option maxRecDepth 8192 in
/-- The source palette function agrees with the spec's palette description on
every index below 256. -/
theorem xterm_palette_matches_spec : ∀ N < 256, xterm_256_to_rgb N = palette256Spec N := by
  decide

/-- Claim C6: for every N in [0, 255], SGR `38;5;N` sets the pen foreground to
the spec's palette value (ANSI colors for 0–7, bright for 8–15, the 6×6×6
cube with levels [0,95,135,175,215,255] in R-major order for 16–231, the
grayscale ramp 8+10·(N−232) for 232–255), and SGR `48;5;N` sets the pen
background to the same value. -/
theorem sgr_palette256 (st : Vt100Terminal) (N : Nat) (hN : N ≤ 255) :
    (applyEvent st (Event.csi [[38], [5], [N]] [] 'm')).current_fg = palette256Spec N ∧
    (applyEvent st (Event.csi [[48], [5], [N]] [] 'm')).current_bg = palette256Spec N ∧
    xterm_256_to_rgb N = palette256Spec N := by
  have hmod : N % 256 = N := Nat.mod_eq_of_lt (by omega)
  have hfg : applyEvent st (Event.csi [[38], [5], [N]] [] 'm') =
      st.set_fg_color (xterm_256_to_rgb (N % 256)) := rfl
  have hbg : applyEvent st (Event.csi [[48], [5], [N]] [] 'm') =
      st.set_bg_color (xterm_256_to_rgb (N % 256)) := rfl
  have hp := xterm_palette_matches_spec N (by omega)
  rw [hfg, hbg, hmod]
  exact ⟨hp, hp, hp⟩

/-- Witness for C6 at N = 196 (cube entry (255, 0, 0)). -/
theorem sgr_palette256_witness :
    (applyEvent (Vt100Terminal.new 3 2) (Event.csi [[38], [5], [196]] [] 'm')).current_fg =
      palette256Spec 196 :=
  (sgr_palette256 (Vt100Terminal.new 3 2) 196 (by decide)).1

/-- Counterexample to claim C8 as stated: at channel value 192 the code's
brightening (with the saturated multiply) yields 255, while the spec formula
`max(min(c+64, 255), (c·4)/3)` yields 256. -/
theorem brighten_formula_counterexample :
    brighten_color (192, 192, 192) ≠
      (specBrightenChannel 192, specBrightenChannel 192, specBrightenChannel 192) := by
  decide

set_option maxRecDepth 8192 in
/-- Claim C8 (amended): the code's per-channel brightening equals the spec
formula clamped to 255; the two agree exactly for channel values ≤ 191, and
`brighten_color` applies the channel function componentwise. -/
theorem brighten_formula_clamped (r g b c : Nat) (hc : c ≤ 255) :
    brighten_color (r, g, b) = (brighten_channel r, brighten_channel g, brighten_channel b) ∧
    brighten_channel c = min (specBrightenChannel c) 255 ∧
    (c ≤ 191 → brighten_channel c = specBrightenChannel c) := by
  have hmin : ∀ x < 256, brighten_channel x = min (specBrightenChannel x) 255 := by decide
  have hlow : ∀ x < 192, brighten_channel x = specBrightenChannel x := by decide
  exact ⟨rfl, hmin c (by omega), fun h191 => hlow c (by omega)⟩

/-- Witness for C8 at a concrete channel triple. -/
theorem brighten_formula_clamped_witness :
    brighten_channel 100 = min (specBrightenChannel 100) 255 :=
  (brighten_formula_clamped 1 2 3 100 (by decide)).2.1

/-! ### `wrapScroll` case characterizations (for claim C2) -/

namespace Vt100Terminal

theorem wrapScroll_of_lt (t1 : Vt100Terminal) (hx : t1.cursor_x < t1.width)
    (hy : t1.cursor_y < t1.height) : t1.wrapScroll = t1 := by
  unfold wrapScroll
  dsimp only
  rw [if_neg (not_le.mpr hx), if_neg (not_le.mpr hy)]

theorem wrapScroll_scroll_of_lt (t1 : Vt100Terminal) (hx : t1.cursor_x < t1.width)
    (hy : t1.height ≤ t1.cursor_y) :
    t1.wrapScroll = { t1 with
      buffer := t1.buffer.tail ++ [List.replicate t1.width ' ']
      fg_colors := t1.fg_colors.tail ++ [List.replicate t1.width ((255, 255, 255) : Color)]
      bg_colors := t1.bg_colors.tail ++ [List.replicate t1.width ((0, 0, 0) : Color)]
      attributes := t1.attributes.tail ++ [List.replicate t1.width ({} : CellAttributes)]
      cursor_y := t1.height - 1 } := by
  unfold wrapScroll
  dsimp only
  rw [if_neg (not_le.mpr hx), if_pos hy]

theorem wrapScroll_wrap_of_lt (t1 : Vt100Terminal) (hx : t1.width ≤ t1.cursor_x)
    (hy : t1.cursor_y + 1 < t1.height) :
    t1.wrapScroll = { t1 with cursor_x := 0, cursor_y := t1.cursor_y + 1 } := by
  unfold wrapScroll
  dsimp only
  rw [if_pos hx, if_neg (not_le.mpr hy)]

theorem wrapScroll_wrap_scroll (t1 : Vt100Terminal) (hx : t1.width ≤ t1.cursor_x)
    (hy : t1.height ≤ t1.cursor_y + 1) :
    t1.wrapScroll = { t1 with
      cursor_x := 0
      buffer := t1.buffer.tail ++ [List.replicate t1.width ' ']
      fg_colors := t1.fg_colors.tail ++ [List.replicate t1.width ((255, 255, 255) : Color)]
      bg_colors := t1.bg_colors.tail ++ [List.replicate t1.width ((0, 0, 0) : Color)]
      attributes := t1.attributes.tail ++ [List.replicate t1.width ({} : CellAttributes)]
      cursor_y := t1.height - 1 } := by
  unfold wrapScroll
  dsimp only
  rw [if_pos hx, if_pos hy]

end Vt100Terminal

/-- Counterexample to claim C2 as stated: LF does reset the column.  After
printing `AB` on a fresh 5×3 emulator the cursor is at column 2; feeding the
C0 byte LF moves it to column 0, not column 2. -/
theorem lf_resets_column_counterexample :
    (applyEvent (applyEvents (Vt100Terminal.new 5 3) (printEvents "AB"))
        (Event.execute 0x0A)).cursor_x ≠
      (applyEvents (Vt100Terminal.new 5 3) (printEvents "AB")).cursor_x := by
  decide

/-- Claim C2 (amended): in ground state, LF (0x0A) advances the cursor row by
one (scrolling at the bottom row) and ALSO resets the column to 0; CR (0x0D)
sets the column to 0; HT (0x09) advances the column to the next multiple of
8, wrapping to column 0 of the next row (scrolling at the bottom) when that
reaches or passes the width (stated for widths ≤ 2^31, where the `u32` tab
arithmetic cannot wrap); BS (0x08) decrements the column by 1 when it is
positive. -/
theorem c0_control_semantics (st : Vt100Terminal) (hWF : st.WF) :
    ((applyEvent st (Event.execute 0x0A)).cursor_x = 0 ∧
     (st.cursor_y + 1 < st.height →
       (applyEvent st (Event.execute 0x0A)).cursor_y = st.cursor_y + 1 ∧
       (applyEvent st (Event.execute 0x0A)).buffer = st.buffer) ∧
     (st.cursor_y + 1 = st.height →
       (applyEvent st (Event.execute 0x0A)).cursor_y = st.height - 1 ∧
       (applyEvent st (Event.execute 0x0A)).buffer =
         st.buffer.tail ++ [List.replicate st.width ' '])) ∧
    ((applyEvent st (Event.execute 0x0D)).cursor_x = 0 ∧
     (applyEvent st (Event.execute 0x0D)).cursor_y = st.cursor_y ∧
     (applyEvent st (Event.execute 0x0D)).buffer = st.buffer) ∧
    (st.width ≤ 2 ^ 31 →
      ((st.cursor_x / 8 + 1) * 8 < st.width →
        (applyEvent st (Event.execute 0x09)).cursor_x = (st.cursor_x / 8 + 1) * 8 ∧
        (applyEvent st (Event.execute 0x09)).cursor_y = st.cursor_y ∧
        (applyEvent st (Event.execute 0x09)).buffer = st.buffer) ∧
      (st.width ≤ (st.cursor_x / 8 + 1) * 8 →
        (applyEvent st (Event.execute 0x09)).cursor_x = 0 ∧
        (st.cursor_y + 1 < st.height →
          (applyEvent st (Event.execute 0x09)).cursor_y = st.cursor_y + 1) ∧
        (st.cursor_y + 1 = st.height →
          (applyEvent st (Event.execute 0x09)).cursor_y = st.height - 1))) ∧
    ((applyEvent st (Event.execute 0x08)).cursor_x = st.cursor_x - 1 ∧
     (applyEvent st (Event.execute 0x08)).cursor_y = st.cursor_y ∧
     (applyEvent st (Event.execute 0x08)).buffer = st.buffer) := by
  obtain ⟨h1, h2, h3, h4, hb, hf, hg, ha, hx, hy, hs⟩ := hWF
  have hLF : applyEvent st (Event.execute 0x0A) =
      Vt100Terminal.wrapScroll { st with cursor_y := st.cursor_y + 1, cursor_x := 0 } := rfl
  have hCR : applyEvent st (Event.execute 0x0D) =
      Vt100Terminal.wrapScroll { st with cursor_x := 0 } := rfl
  have hHT : applyEvent st (Event.execute 0x09) =
      Vt100Terminal.wrapScroll
        { st with cursor_x := ((st.cursor_x / 8 + 1) * 8) % U32 } := rfl
  have hBS : applyEvent st (Event.execute 0x08) = st.backspace := rfl
  refine ⟨?_, ?_, ?_, ?_⟩
  · -- LF
    rw [hLF]
    rcases Nat.lt_or_ge (st.cursor_y + 1) st.height with hlt | hge
    · rw [Vt100Terminal.wrapScroll_of_lt _ (by dsimp only; omega) (by dsimp only; omega)]
      exact ⟨rfl, fun _ => ⟨rfl, rfl⟩, fun hEq => absurd hEq (by omega)⟩
    · rw [Vt100Terminal.wrapScroll_scroll_of_lt _ (by dsimp only; omega) (by dsimp only; omega)]
      exact ⟨rfl, fun hlt2 => absurd hlt2 (by omega), fun _ => ⟨rfl, rfl⟩⟩
  · -- CR
    rw [hCR, Vt100Terminal.wrapScroll_of_lt _ (by dsimp only; omega) (by dsimp only; omega)]
    exact ⟨rfl, rfl, rfl⟩
  · -- HT
    intro hw31
    have hmod : ((st.cursor_x / 8 + 1) * 8) % U32 = (st.cursor_x / 8 + 1) * 8 :=
      Nat.mod_eq_of_lt (by unfold U32; omega)
    refine ⟨fun hlt => ?_, fun hge => ?_⟩
    · rw [hHT, Vt100Terminal.wrapScroll_of_lt _ (by dsimp only; omega) (by dsimp only; omega)]
      exact ⟨hmod, rfl, rfl⟩
    · rcases Nat.lt_or_ge (st.cursor_y + 1) st.height with hlt2 | hge2
      · rw [hHT, Vt100Terminal.wrapScroll_wrap_of_lt _ (by dsimp only; omega)
          (by dsimp only; omega)]
        exact ⟨rfl, fun _ => rfl, fun hEq => absurd hEq (by omega)⟩
      · rw [hHT, Vt100Terminal.wrapScroll_wrap_scroll _ (by dsimp only; omega)
          (by dsimp only; omega)]
        exact ⟨rfl, fun hlt3 => absurd hlt3 (by omega), fun _ => rfl⟩
  · -- BS
    rw [hBS]
    unfold Vt100Terminal.backspace
    by_cases h0 : 0 < st.cursor_x
    · rw [if_pos h0]
      exact ⟨rfl, rfl, rfl⟩
    · rw [if_neg h0]
      exact ⟨by omega, rfl, rfl⟩

/-! ### Pointwise cell lemmas for the erase loops (for claim C3) -/

namespace Vt100Terminal

theorem fillCols_shapes (t : Vt100Terminal) (y : Nat) (xs : List Nat) (ch : Char)
    (fg bg : Color) (attrs : CellAttributes)
    (hf : GridShape t.fg_colors t.height t.width)
    (hg : GridShape t.bg_colors t.height t.width)
    (ha : GridShape t.attributes t.height t.width) :
    GridShape (t.fillCols y xs ch fg bg attrs).fg_colors t.height t.width ∧
    GridShape (t.fillCols y xs ch fg bg attrs).bg_colors t.height t.width ∧
    GridShape (t.fillCols y xs ch fg bg attrs).attributes t.height t.width := by
  induction xs generalizing t with
  | nil => exact ⟨hf, hg, ha⟩
  | cons x rest ih =>
    exact ih (t.putCell y x ch fg bg attrs) (hf.set ..) (hg.set ..) (ha.set ..)

theorem fillCols_cellAt_not_mem (t : Vt100Terminal) (y : Nat) (xs : List Nat)
    (ch : Char) (fg bg : Color) (attrs : CellAttributes) (i j : Nat)
    (hij : i ≠ y ∨ j ∉ xs) :
    cellAt (t.fillCols y xs ch fg bg attrs).fg_colors i j = cellAt t.fg_colors i j ∧
    cellAt (t.fillCols y xs ch fg bg attrs).bg_colors i j = cellAt t.bg_colors i j ∧
    cellAt (t.fillCols y xs ch fg bg attrs).attributes i j = cellAt t.attributes i j := by
  induction xs generalizing t with
  | nil => exact ⟨rfl, rfl, rfl⟩
  | cons x rest ih =>
    have hij' : i ≠ y ∨ j ∉ rest := by
      rcases hij with h | h
      · exact Or.inl h
      · exact Or.inr (fun hr => h (List.mem_cons_of_mem _ hr))
    have hijx : i ≠ y ∨ j ≠ x := by
      rcases hij with h | h
      · exact Or.inl h
      · exact Or.inr (fun hjx => h (hjx ▸ List.mem_cons_self ..))
    obtain ⟨e1, e2, e3⟩ := ih (t.putCell y x ch fg bg attrs) hij'
    refine ⟨e1.trans ?_, e2.trans ?_, e3.trans ?_⟩
    · exact cellAt_setMat_other t.fg_colors y x i j fg hijx
    · exact cellAt_setMat_other t.bg_colors y x i j bg hijx
    · exact cellAt_setMat_other t.attributes y x i j attrs hijx

theorem fillCols_cellAt_mem (t : Vt100Terminal) (y x : Nat) (xs : List Nat)
    (ch : Char) (fg bg : Color) (attrs : CellAttributes)
    (hf : GridShape t.fg_colors t.height t.width)
    (hg : GridShape t.bg_colors t.height t.width)
    (ha : GridShape t.attributes t.height t.width)
    (hy : y < t.height) (hx : x < t.width) (hmem : x ∈ xs) :
    cellAt (t.fillCols y xs ch fg bg attrs).fg_colors y x = some fg ∧
    cellAt (t.fillCols y xs ch fg bg attrs).bg_colors y x = some bg ∧
    cellAt (t.fillCols y xs ch fg bg attrs).attributes y x = some attrs := by
  induction xs generalizing t with
  | nil => cases hmem
  | cons x0 rest ih =>
    by_cases hr : x ∈ rest
    · exact ih (t.putCell y x0 ch fg bg attrs) (hf.set ..) (hg.set ..) (ha.set ..) hy hx hr
    · have hx0 : x0 = x := by
        rcases List.mem_cons.mp hmem with h | h
        · exact h.symm
        · exact absurd h hr
      subst hx0
      obtain ⟨e1, e2, e3⟩ := fillCols_cellAt_not_mem (t.putCell y x0 ch fg bg attrs)
        y rest ch fg bg attrs y x0 (Or.inr hr)
      refine ⟨e1.trans ?_, e2.trans ?_, e3.trans ?_⟩
      · exact cellAt_setMat_self hf hy hx fg
      · exact cellAt_setMat_self hg hy hx bg
      · exact cellAt_setMat_self ha hy hx attrs

theorem clearLoop_cellAt_not_mem (t : Vt100Terminal) (ys : List Nat) (i j : Nat)
    (hi : i ∉ ys) :
    cellAt (t.clearLoop ys).fg_colors i j = cellAt t.fg_colors i j ∧
    cellAt (t.clearLoop ys).bg_colors i j = cellAt t.bg_colors i j ∧
    cellAt (t.clearLoop ys).attributes i j = cellAt t.attributes i j := by
  induction ys generalizing t with
  | nil => exact ⟨rfl, rfl, rfl⟩
  | cons y0 rest ih =>
    have hi' : i ∉ rest := fun h => hi (List.mem_cons_of_mem _ h)
    have hiy : i ≠ y0 := fun h => hi (h ▸ List.mem_cons_self ..)
    obtain ⟨e1, e2, e3⟩ :=
      ih (t.fillCols y0 (List.range t.width) ' ' t.default_fg t.default_bg {}) hi'
    obtain ⟨f1, f2, f3⟩ := fillCols_cellAt_not_mem t y0 (List.range t.width) ' '
      t.default_fg t.default_bg {} i j (Or.inl hiy)
    exact ⟨e1.trans f1, e2.trans f2, e3.trans f3⟩

theorem clearLoop_cellAt (t : Vt100Terminal) (ys : List Nat) (y x : Nat)
    (hf : GridShape t.fg_colors t.height t.width)
    (hg : GridShape t.bg_colors t.height t.width)
    (ha : GridShape t.attributes t.height t.width)
    (hy : y < t.height) (hx : x < t.width) (hmem : y ∈ ys) :
    cellAt (t.clearLoop ys).fg_colors y x = some t.default_fg ∧
    cellAt (t.clearLoop ys).bg_colors y x = some t.default_bg ∧
    cellAt (t.clearLoop ys).attributes y x = some ({} : CellAttributes) := by
  induction ys generalizing t with
  | nil => cases hmem
  | cons y0 rest ih =>
    obtain ⟨s1, s2, s3⟩ :=
      fillCols_shapes t y0 (List.range t.width) ' ' t.default_fg t.default_bg {} hf hg ha
    obtain ⟨B, F, G, A, hEq⟩ :=
      fillCols_eq_update t y0 (List.range t.width) ' ' t.default_fg t.default_bg {}
    by_cases hr : y ∈ rest
    · have hdfg : (t.fillCols y0 (List.range t.width) ' '
          t.default_fg t.default_bg {}).default_fg = t.default_fg := by rw [hEq]
      have hdbg : (t.fillCols y0 (List.range t.width) ' '
          t.default_fg t.default_bg {}).default_bg = t.default_bg := by rw [hEq]
      have := ih (t.fillCols y0 (List.range t.width) ' ' t.default_fg t.default_bg {})
        (by rw [hEq] at s1 ⊢; exact s1) (by rw [hEq] at s2 ⊢; exact s2)
        (by rw [hEq] at s3 ⊢; exact s3) (by rw [hEq]; exact hy) (by rw [hEq]; exact hx) hr
      rw [hdfg, hdbg] at this
      exact this
    · have hy0 : y0 = y := by
        rcases List.mem_cons.mp hmem with h | h
        · exact h.symm
        · exact absurd h hr
      subst hy0
      obtain ⟨e1, e2, e3⟩ := clearLoop_cellAt_not_mem
        (t.fillCols y0 (List.range t.width) ' ' t.default_fg t.default_bg {}) rest y0 x hr
      refine ⟨e1.trans ?_, e2.trans ?_, e3.trans ?_⟩
      · exact (fillCols_cellAt_mem t y0 x (List.range t.width) ' ' t.default_fg
          t.default_bg {} hf hg ha hy hx (List.mem_range.mpr hx)).1
      · exact (fillCols_cellAt_mem t y0 x (List.range t.width) ' ' t.default_fg
          t.default_bg {} hf hg ha hy hx (List.mem_range.mpr hx)).2.1
      · exact (fillCols_cellAt_mem t y0 x (List.range t.width) ' ' t.default_fg
          t.default_bg {} hf hg ha hy hx (List.mem_range.mpr hx)).2.2

theorem clearFromLoop_cellAt_not_mem (t : Vt100Terminal) (sr : Nat) (ys : List Nat)
    (i j : Nat) (hi : i ∉ ys) :
    cellAt (t.clearFromLoop sr ys).fg_colors i j = cellAt t.fg_colors i j ∧
    cellAt (t.clearFromLoop sr ys).bg_colors i j = cellAt t.bg_colors i j ∧
    cellAt (t.clearFromLoop sr ys).attributes i j = cellAt t.attributes i j := by
  induction ys generalizing t with
  | nil => exact ⟨rfl, rfl, rfl⟩
  | cons y0 rest ih =>
    have hi' : i ∉ rest := fun h => hi (List.mem_cons_of_mem _ h)
    have hiy : i ≠ y0 := fun h => hi (h ▸ List.mem_cons_self ..)
    obtain ⟨e1, e2, e3⟩ := ih (t.fillCols y0
      (List.range' (if y0 = sr then t.cursor_x else 0)
        (t.width - if y0 = sr then t.cursor_x else 0)) ' '
      t.current_fg t.current_bg {}) hi'
    obtain ⟨f1, f2, f3⟩ := fillCols_cellAt_not_mem t y0
      (List.range' (if y0 = sr then t.cursor_x else 0)
        (t.width - if y0 = sr then t.cursor_x else 0)) ' '
      t.current_fg t.current_bg {} i j (Or.inl hiy)
    exact ⟨e1.trans f1, e2.trans f2, e3.trans f3⟩

theorem clearFromLoop_cellAt (t : Vt100Terminal) (sr : Nat) (ys : List Nat) (y x : Nat)
    (hf : GridShape t.fg_colors t.height t.width)
    (hg : GridShape t.bg_colors t.height t.width)
    (ha : GridShape t.attributes t.height t.width)
    (hy : y < t.height) (hx : x < t.width) (hmem : y ∈ ys)
    (hstart : y = sr → t.cursor_x ≤ x) :
    cellAt (t.clearFromLoop sr ys).fg_colors y x = some t.current_fg ∧
    cellAt (t.clearFromLoop sr ys).bg_colors y x = some t.current_bg ∧
    cellAt (t.clearFromLoop sr ys).attributes y x = some ({} : CellAttributes) := by
  induction ys generalizing t with
  | nil => cases hmem
  | cons y0 rest ih =>
    obtain ⟨s1, s2, s3⟩ := fillCols_shapes t y0
      (List.range' (if y0 = sr then t.cursor_x else 0)
        (t.width - if y0 = sr then t.cursor_x else 0)) ' '
      t.current_fg t.current_bg {} hf hg ha
    obtain ⟨B, F, G, A, hEq⟩ := fillCols_eq_update t y0
      (List.range' (if y0 = sr then t.cursor_x else 0)
        (t.width - if y0 = sr then t.cursor_x else 0)) ' '
      t.current_fg t.current_bg {}
    by_cases hr : y ∈ rest
    · have hcfg : (t.fillCols y0
          (List.range' (if y0 = sr then t.cursor_x else 0)
            (t.width - if y0 = sr then t.cursor_x else 0)) ' '
          t.current_fg t.current_bg {}).current_fg = t.current_fg := by rw [hEq]
      have hcbg : (t.fillCols y0
          (List.range' (if y0 = sr then t.cursor_x else 0)
            (t.width - if y0 = sr then t.cursor_x else 0)) ' '
          t.current_fg t.current_bg {}).current_bg = t.current_bg := by rw [hEq]
      have := ih (t.fillCols y0
        (List.range' (if y0 = sr then t.cursor_x else 0)
          (t.width - if y0 = sr then t.cursor_x else 0)) ' '
        t.current_fg t.current_bg {})
        (by rw [hEq] at s1 ⊢; exact s1) (by rw [hEq] at s2 ⊢; exact s2)
        (by rw [hEq] at s3 ⊢; exact s3) (by rw [hEq]; exact hy) (by rw [hEq]; exact hx)
        hr (by rw [hEq]; exact hstart)
      rw [hcfg, hcbg] at this
      exact this
    · have hy0 : y0 = y := by
        rcases List.mem_cons.mp hmem with h | h
        · exact h.symm
        · exact absurd h hr
      subst hy0
      have hxs : x ∈ List.range' (if y0 = sr then t.cursor_x else 0)
          (t.width - if y0 = sr then t.cursor_x else 0) := by
        by_cases hEqsr : y0 = sr
        · rw [if_pos hEqsr]
          exact List.mem_range'_1.mpr ⟨hstart hEqsr, by have := hstart hEqsr; omega⟩
        · rw [if_neg hEqsr]
          exact List.mem_range'_1.mpr ⟨Nat.zero_le x, by omega⟩
      obtain ⟨e1, e2, e3⟩ := clearFromLoop_cellAt_not_mem (t.fillCols y0
        (List.range' (if y0 = sr then t.cursor_x else 0)
          (t.width - if y0 = sr then t.cursor_x else 0)) ' '
        t.current_fg t.current_bg {}) sr rest y0 x hr
      obtain ⟨f1, f2, f3⟩ := fillCols_cellAt_mem t y0 x
        (List.range' (if y0 = sr then t.cursor_x else 0)
          (t.width - if y0 = sr then t.cursor_x else 0)) ' '
        t.current_fg t.current_bg {} hf hg ha hy hx hxs
      exact ⟨e1.trans f1, e2.trans f2, e3.trans f3⟩

end Vt100Terminal

/-- Counterexample to claim C3 as stated: after SGR 41 makes the pen
background red, CSI 2J fills cells with the DEFAULT background, not the
pen's: cell (0,0) disagrees with the pen background current when the erase
ran. -/
theorem erase_fill_counterexample :
    cellAt (applyEvents (Vt100Terminal.new 2 2)
        [Event.csi [[41]] [] 'm', Event.csi [[2]] [] 'J']).bg_colors 0 0 ≠
      some (applyEvents (Vt100Terminal.new 2 2)
        [Event.csi [[41]] [] 'm']).current_bg := by
  decide

/-- Claim C3 (amended): for a well-formed state, CSI K and CSI J mode 0 fill
each erased cell with the current pen's foreground and background and clear
its attributes; CSI J modes 2 and 3 instead fill every cell with the DEFAULT
foreground and background (and reset the pen), not the current pen's. -/
theorem erase_fill_semantics (st : Vt100Terminal) (hWF : st.WF) :
    (∀ x, st.cursor_x ≤ x → x < st.width →
      cellAt (applyEvent st (Event.csi [] [] 'K')).fg_colors st.cursor_y x =
        some st.current_fg ∧
      cellAt (applyEvent st (Event.csi [] [] 'K')).bg_colors st.cursor_y x =
        some st.current_bg ∧
      cellAt (applyEvent st (Event.csi [] [] 'K')).attributes st.cursor_y x =
        some ({} : CellAttributes)) ∧
    (∀ y x, y < st.height → x < st.width →
      (st.cursor_y < y ∨ (y = st.cursor_y ∧ st.cursor_x ≤ x)) →
      cellAt (applyEvent st (Event.csi [] [] 'J')).fg_colors y x =
        some st.current_fg ∧
      cellAt (applyEvent st (Event.csi [] [] 'J')).bg_colors y x =
        some st.current_bg ∧
      cellAt (applyEvent st (Event.csi [] [] 'J')).attributes y x =
        some ({} : CellAttributes)) ∧
    (∀ m, m = 2 ∨ m = 3 → ∀ y x, y < st.height → x < st.width →
      cellAt (applyEvent st (Event.csi [[m]] [] 'J')).fg_colors y x =
        some st.default_fg ∧
      cellAt (applyEvent st (Event.csi [[m]] [] 'J')).bg_colors y x =
        some st.default_bg ∧
      cellAt (applyEvent st (Event.csi [[m]] [] 'J')).attributes y x =
        some ({} : CellAttributes)) := by
  obtain ⟨h1, h2, h3, h4, hb, hf, hg, ha, hcx, hcy, hs⟩ := hWF
  refine ⟨?_, ?_, ?_⟩
  · -- CSI K: clear_line_from_cursor
    intro x hge hlt
    have hK : applyEvent st (Event.csi [] [] 'K') = st.clear_line_from_cursor := rfl
    rw [hK]
    unfold Vt100Terminal.clear_line_from_cursor
    rw [if_neg (not_le.mpr hcy)]
    exact Vt100Terminal.fillCols_cellAt_mem st st.cursor_y x
      (List.range' st.cursor_x (st.width - st.cursor_x)) ' '
      st.current_fg st.current_bg {} hf hg ha hcy hlt
      (List.mem_range'_1.mpr ⟨hge, by omega⟩)
  · -- CSI J mode 0: clear_from_cursor
    intro y x hylt hxlt hregion
    have hJ : applyEvent st (Event.csi [] [] 'J') = st.clear_from_cursor := rfl
    rw [hJ]
    unfold Vt100Terminal.clear_from_cursor
    refine Vt100Terminal.clearFromLoop_cellAt st st.cursor_y
      (List.range' st.cursor_y (st.height - st.cursor_y)) y x hf hg ha hylt hxlt
      (List.mem_range'_1.mpr ⟨by rcases hregion with h | h; omega; omega, by omega⟩)
      (fun hEq => ?_)
    rcases hregion with h | h
    · omega
    · exact h.2
  · -- CSI J modes 2 and 3: clear
    intro m hm y x hylt hxlt
    have hJ : applyEvent st (Event.csi [[m]] [] 'J') = st.clear := by
      rcases hm with h | h <;> rw [h] <;> rfl
    rw [hJ]
    exact Vt100Terminal.clearLoop_cellAt st (List.range st.height) y x hf hg ha
      hylt hxlt (List.mem_range.mpr hylt)

/-- Witness for C3 on a fresh 3×2 emulator: CSI K paints cell (0,1) with the
pen background. -/
theorem erase_fill_semantics_witness :
    cellAt (applyEvent (Vt100Terminal.new 3 2) (Event.csi [] [] 'K')).bg_colors 0 1 =
      some (Vt100Terminal.new 3 2).current_bg :=
  ((erase_fill_semantics (Vt100Terminal.new 3 2)
      (new_WF 3 2 (by decide) (by norm_num [U32]) (by decide) (by norm_num [U32]))).1
    1 (by decide) (by decide)).2.1

/-! ### Lemmas about the input-name parser (for claim C9) -/

theorem dropWhile_eq_self_of_all (p : Char → Bool) (l : List Char)
    (h : ∀ c ∈ l, p c = false) : l.dropWhile p = l := by
  cases l with
  | nil => rfl
  | cons a as =>
    rw [List.dropWhile_cons, if_neg (by simp [h a (List.mem_cons_self ..)])]

theorem trimChars_eq_self (l : List Char) (h : ∀ c ∈ l, rustIsWhitespace c = false) :
    trimChars l = l := by
  unfold trimChars
  rw [dropWhile_eq_self_of_all _ _ h,
      dropWhile_eq_self_of_all _ _ (fun c hc => h c (List.mem_reverse.mp hc)),
      List.reverse_reverse]

theorem splitPMAux_no_sep (l acc : List Char) (h : ∀ c ∈ l, ¬(c = '+' ∨ c = '-')) :
    splitPMAux l acc = [acc.reverse ++ l] := by
  induction l generalizing acc with
  | nil => simp [splitPMAux]
  | cons c rest ih =>
    unfold splitPMAux
    rw [if_neg (h c (List.mem_cons_self ..)),
        ih (c :: acc) (fun d hd => h d (List.mem_cons_of_mem _ hd))]
    simp

theorem lastPiece_alt (X : List Char) (h : ∀ c ∈ X, ¬(c = '+' ∨ c = '-')) :
    lastPiece ('a' :: 'l' :: 't' :: '+' :: X) = X := by
  have h1 : splitPM ('a' :: 'l' :: 't' :: '+' :: X) =
      ['a', 'l', 't'] :: splitPMAux X [] := rfl
  unfold lastPiece
  rw [h1, splitPMAux_no_sep X [] h]
  rfl

theorem parse_input_arms_alt (X input : List Char) :
    parse_input_arms ('a' :: 'l' :: 't' :: '+' :: X) input =
      0x1B :: utf8Bytes (lastPiece ('a' :: 'l' :: 't' :: '+' :: X)) := rfl

theorem parse_input_arms_default (s input : List Char) (h : matchesArm s = false) :
    parse_input_arms s input = utf8Bytes input := by
  simp only [matchesArm, Bool.or_eq_false_iff, beq_eq_false_iff_ne, ne_eq] at h
  obtain ⟨h, h42⟩ := h
  obtain ⟨h, h41⟩ := h
  obtain ⟨h, h40⟩ := h
  obtain ⟨h, h39⟩ := h
  obtain ⟨h, h38⟩ := h
  obtain ⟨h, h37⟩ := h
  obtain ⟨h, h36⟩ := h
  obtain ⟨h, h35⟩ := h
  obtain ⟨h, h34⟩ := h
  obtain ⟨h, h33⟩ := h
  obtain ⟨h, h32⟩ := h
  obtain ⟨h, h31⟩ := h
  obtain ⟨h, h30⟩ := h
  obtain ⟨h, h29⟩ := h
  obtain ⟨h, h28⟩ := h
  obtain ⟨h, h27⟩ := h
  obtain ⟨h, h26⟩ := h
  obtain ⟨h, h25⟩ := h
  obtain ⟨h, h24⟩ := h
  obtain ⟨h, h23⟩ := h
  obtain ⟨h, h22⟩ := h
  obtain ⟨h, h21⟩ := h
  obtain ⟨h, h20⟩ := h
  obtain ⟨h, h19⟩ := h
  obtain ⟨h, h18⟩ := h
  obtain ⟨h, h17⟩ := h
  obtain ⟨h, h16⟩ := h
  obtain ⟨h, h15⟩ := h
  obtain ⟨h, h14⟩ := h
  obtain ⟨h, h13⟩ := h
  obtain ⟨h, h12⟩ := h
  obtain ⟨h, h11⟩ := h
  obtain ⟨h, h10⟩ := h
  obtain ⟨h, h9⟩ := h
  obtain ⟨h, h8⟩ := h
  obtain ⟨h, h7⟩ := h
  obtain ⟨h, h6⟩ := h
  obtain ⟨h, h5⟩ := h
  obtain ⟨h, h4⟩ := h
  obtain ⟨h, h3⟩ := h
  obtain ⟨h1, h2⟩ := h
  unfold parse_input_arms
  rw [if_neg h1, if_neg h2, if_neg h3, if_neg h4, if_neg h5, if_neg h6,
      if_neg (not_or.mpr ⟨h7, not_or.mpr ⟨h8, h9⟩⟩),
      if_neg (not_or.mpr ⟨h10, not_or.mpr ⟨h11, h12⟩⟩),
      if_neg (not_or.mpr ⟨h13, h14⟩),
      if_neg (not_or.mpr ⟨h15, h16⟩),
      if_neg (not_or.mpr ⟨h17, h18⟩),
      if_neg h19, if_neg h20,
      if_neg (not_or.mpr ⟨h21, h22⟩),
      if_neg (not_or.mpr ⟨h23, h24⟩),
      if_neg h25, if_neg h26, if_neg h27, if_neg h28, if_neg h29, if_neg h30,
      if_neg h31, if_neg h32, if_neg h33, if_neg h34, if_neg h35, if_neg h36,
      if_neg (by rw [h37, h38, h39]; simp),
      if_neg (by rw [h40, h41, h42]; simp)]

/-- Counterexample to claim C9 as stated: `alt+X` does not send the bytes of
`X` when `X` has an uppercase letter, because the whole name is lowercased
first: `alt+A` sends `ESC a`, not `ESC A`. -/
theorem alt_case_counterexample :
    parse_input ('a' :: 'l' :: 't' :: '+' :: ['A']) ≠ 0x1B :: utf8Bytes ['A'] := by
  decide

set_option maxRecDepth 8192 in
/-- Claim C9 (amended): the fixed table rows translate as listed (matched
case-insensitively after trimming, with the aliases of the source accepted);
`ctrl+c` for a single letter gives the byte `lower(c) - 0x61 + 1`;
`ctrl+space` gives `0x00`; `alt+X` (for ASCII `X` free of `+`, `-` and
whitespace) gives `0x1B` followed by the bytes of the LOWERCASED `X`, not of
`X` itself; and an ASCII name matching no arm is sent as its own bytes
verbatim.  The general conjuncts carry an all-ASCII hypothesis because on
ASCII input Rust's `str::to_lowercase` is exactly `asciiLower`; whitespace
and trimming are modelled in full via `rustIsWhitespace`. -/
theorem parse_input_table_semantics :
    (parse_input "up".toList = [0x1B, 0x5B, 0x41] ∧
     parse_input "down".toList = [0x1B, 0x5B, 0x42] ∧
     parse_input "right".toList = [0x1B, 0x5B, 0x43] ∧
     parse_input "left".toList = [0x1B, 0x5B, 0x44] ∧
     parse_input "home".toList = [0x1B, 0x5B, 0x48] ∧
     parse_input "end".toList = [0x1B, 0x5B, 0x46] ∧
     parse_input "pageup".toList = [0x1B, 0x5B, 0x35, 0x7E] ∧
     parse_input "pgup".toList = [0x1B, 0x5B, 0x35, 0x7E] ∧
     parse_input "pagedown".toList = [0x1B, 0x5B, 0x36, 0x7E] ∧
     parse_input "insert".toList = [0x1B, 0x5B, 0x32, 0x7E] ∧
     parse_input "delete".toList = [0x1B, 0x5B, 0x33, 0x7E] ∧
     parse_input "enter".toList = [0x0D] ∧
     parse_input "return".toList = [0x0D] ∧
     parse_input "space".toList = [0x20] ∧
     parse_input "tab".toList = [0x09] ∧
     parse_input "backspace".toList = [0x7F] ∧
     parse_input "escape".toList = [0x1B] ∧
     parse_input "f1".toList = [0x1B, 0x4F, 0x50] ∧
     parse_input "f12".toList = [0x1B, 0x5B, 0x32, 0x34, 0x7E] ∧
     parse_input "UP".toList = [0x1B, 0x5B, 0x41] ∧
     parse_input "Enter".toList = [0x0D]) ∧
    (∀ n, n < 26 →
      parse_input ('c' :: 't' :: 'r' :: 'l' :: '+' :: [Char.ofNat (0x61 + n)]) =
        [n + 1] ∧
      parse_input ('c' :: 't' :: 'r' :: 'l' :: '+' :: [Char.ofNat (0x41 + n)]) =
        [n + 1]) ∧
    (parse_input "ctrl+space".toList = [0x00] ∧
     parse_input "CTRL+SPACE".toList = [0x00]) ∧
    (∀ X : List Char, (∀ c ∈ X, c.toNat < 0x80) →
      (∀ c ∈ X.map asciiLower, ¬(c = '+' ∨ c = '-') ∧ rustIsWhitespace c = false) →
      parse_input ('a' :: 'l' :: 't' :: '+' :: X) =
        0x1B :: utf8Bytes (X.map asciiLower)) ∧
    (∀ input : List Char, (∀ c ∈ input, c.toNat < 0x80) →
      matchesArm (trimChars (input.map asciiLower)) = false →
      parse_input input = utf8Bytes input) := by
  refine ⟨by decide, by decide, by decide, ?_, ?_⟩
  · intro X hascii h
    have htrim : trimChars ('a' :: 'l' :: 't' :: '+' :: X.map asciiLower) =
        'a' :: 'l' :: 't' :: '+' :: X.map asciiLower := by
      refine trimChars_eq_self _ (fun c hc => ?_)
      simp only [List.mem_cons] at hc
      rcases hc with rfl | rfl | rfl | rfl | hc'
      · decide
      · decide
      · decide
      · decide
      · exact (h c hc').2
    have hroute : parse_input ('a' :: 'l' :: 't' :: '+' :: X) =
        parse_input_arms (trimChars ('a' :: 'l' :: 't' :: '+' :: X.map asciiLower))
          ('a' :: 'l' :: 't' :: '+' :: X) := rfl
    rw [hroute, htrim, parse_input_arms_alt,
        lastPiece_alt _ (fun c hc => (h c hc).1)]
  · intro input hascii h
    exact parse_input_arms_default _ input h

/-- Witness for C9: `alt+A` sends ESC then the lowercased key byte. -/
theorem parse_input_table_semantics_witness :
    parse_input ('a' :: 'l' :: 't' :: '+' :: ['A']) =
      0x1B :: utf8Bytes (['A'].map asciiLower) :=
  parse_input_table_semantics.2.2.2.1 ['A'] (by decide) (by decide)

/-- Witness for C2 on a concrete reachable state (5×3 emulator after `AB`). -/
theorem c0_control_semantics_witness :
    (applyEvent (applyEvents (Vt100Terminal.new 5 3) (printEvents "AB"))
      (Event.execute 0x0D)).cursor_x = 0 :=
  (c0_control_semantics (applyEvents (Vt100Terminal.new 5 3) (printEvents "AB"))
    ((applyEvents_stepOK (Vt100Terminal.new 5 3) (printEvents "AB")).2.2.2.2
      (new_WF 5 3 (by decide) (by norm_num [U32]) (by decide)
        (by norm_num [U32])))).2.1.1

/-! ### Agreement of the checked model with the total model (for claim C7)

Under well-formedness and dimensions at most `2^31`, every checked operation
returns `some` of the total operation's result: no panic site fires. -/

theorem setMatChecked_eq {α : Type} {m : List (List α)} {h w : Nat} (y x : Nat)
    (v : α) (hm : GridShape m h w) (hy : y < h) (hx : x < w) :
    setMatChecked m y x v = some (setMat m y x v) := by
  have hylen : y < m.length := by rw [hm.1]; exact hy
  unfold setMatChecked TuiHarness.setMat
  cases hrow : m.get? y with
  | none => exact absurd (List.get?_eq_none.mp hrow) (by omega)
  | some row =>
    have hrlen : row.length = w := hm.2 row (List.get?_mem hrow)
    dsimp only
    rw [if_pos (show x < row.length by omega)]

namespace Vt100Terminal

theorem putCellChecked_eq (t : Vt100Terminal) (y x : Nat) (ch : Char)
    (fg bg : Color) (attrs : CellAttributes) (hWF : t.WF)
    (hy : y < t.height) (hx : x < t.width) :
    t.putCellChecked y x ch fg bg attrs = some (t.putCell y x ch fg bg attrs) := by
  obtain ⟨h1, h2, h3, h4, hb, hf, hg, ha, hcx, hcy, hs⟩ := hWF
  unfold putCellChecked
  rw [setMatChecked_eq y x ch hb hy hx, setMatChecked_eq y x fg hf hy hx,
      setMatChecked_eq y x bg hg hy hx, setMatChecked_eq y x attrs ha hy hx]
  rfl

theorem fillColsChecked_eq (t : Vt100Terminal) (y : Nat) (xs : List Nat) (ch : Char)
    (fg bg : Color) (attrs : CellAttributes) (hWF : t.WF) (hy : y < t.height)
    (hxs : ∀ x ∈ xs, x < t.width) :
    t.fillColsChecked y xs ch fg bg attrs = some (t.fillCols y xs ch fg bg attrs) := by
  induction xs generalizing t with
  | nil => rfl
  | cons x rest ih =>
    unfold fillColsChecked
    rw [putCellChecked_eq t y x ch fg bg attrs hWF hy (hxs x (List.mem_cons_self ..))]
    exact ih (t.putCell y x ch fg bg attrs) ((putCell_stepOK ..).2.2.2.2 hWF) hy
      (fun x' hx' => hxs x' (List.mem_cons_of_mem _ hx'))

theorem clearLoopChecked_eq (t : Vt100Terminal) (ys : List Nat) (hWF : t.WF)
    (hys : ∀ y ∈ ys, y < t.height) :
    t.clearLoopChecked ys = some (t.clearLoop ys) := by
  induction ys generalizing t with
  | nil => rfl
  | cons y rest ih =>
    unfold clearLoopChecked
    rw [fillColsChecked_eq t y (List.range t.width) ' ' t.default_fg t.default_bg {}
      hWF (hys y (List.mem_cons_self ..)) (fun x hx => List.mem_range.mp hx)]
    obtain ⟨B, F, G, A, hEq⟩ :=
      fillCols_eq_update t y (List.range t.width) ' ' t.default_fg t.default_bg {}
    exact ih (t.fillCols y (List.range t.width) ' ' t.default_fg t.default_bg {})
      ((fillCols_stepOK ..).2.2.2.2 hWF)
      (by rw [hEq]; exact fun y' hy' => hys y' (List.mem_cons_of_mem _ hy'))

theorem clearChecked_eq (t : Vt100Terminal) (hWF : t.WF) :
    t.clearChecked = some t.clear := by
  unfold clearChecked
  rw [clearLoopChecked_eq t (List.range t.height) hWF (fun y hy => List.mem_range.mp hy)]
  rfl

theorem wrapScrollChecked_eq (t1 : Vt100Terminal) (hW : WFnc t1) :
    wrapScrollChecked t1 = some t1.wrapScroll := by
  obtain ⟨h1, h2, h3, h4, hb, hf, hg, ha, hs⟩ := hW
  have hbne : t1.buffer ≠ [] := by
    intro hnil; have := hb.1; rw [hnil] at this; simp at this; omega
  have hfne : t1.fg_colors ≠ [] := by
    intro hnil; have := hf.1; rw [hnil] at this; simp at this; omega
  have hgne : t1.bg_colors ≠ [] := by
    intro hnil; have := hg.1; rw [hnil] at this; simp at this; omega
  have hane : t1.attributes ≠ [] := by
    intro hnil; have := ha.1; rw [hnil] at this; simp at this; omega
  have hno : ¬(t1.buffer = [] ∨ t1.fg_colors = [] ∨ t1.bg_colors = [] ∨
      t1.attributes = []) :=
    not_or.mpr ⟨hbne, not_or.mpr ⟨hfne, not_or.mpr ⟨hgne, hane⟩⟩⟩
  rcases Nat.lt_or_ge t1.cursor_x t1.width with hx | hx
  · rcases Nat.lt_or_ge t1.cursor_y t1.height with hy | hy
    · rw [t1.wrapScroll_of_lt hx hy]
      unfold wrapScrollChecked
      dsimp only
      rw [if_neg (not_le.mpr hx), if_neg (not_le.mpr hy)]
    · rw [t1.wrapScroll_scroll_of_lt hx hy]
      unfold wrapScrollChecked
      dsimp only
      rw [if_neg (not_le.mpr hx), if_pos hy, if_neg hno]
  · rcases Nat.lt_or_ge (t1.cursor_y + 1) t1.height with hy | hy
    · rw [t1.wrapScroll_wrap_of_lt hx hy]
      unfold wrapScrollChecked
      dsimp only
      rw [if_pos hx, if_neg (not_le.mpr hy)]
    · rw [t1.wrapScroll_wrap_scroll hx hy]
      unfold wrapScrollChecked
      dsimp only
      rw [if_pos hx, if_pos hy, if_neg hno]

theorem write_charChecked_eq (t : Vt100Terminal) (ch : Char) (hWF : t.WF) :
    t.write_charChecked ch = some (t.write_char ch) := by
  have hWF' := hWF
  obtain ⟨h1, h2, h3, h4, hb, hf, hg, ha, hcx, hcy, hs⟩ := hWF
  unfold write_charChecked write_char
  dsimp only
  by_cases hn : ch = '\n'
  · simp only [if_pos hn]
    exact wrapScrollChecked_eq _ ⟨h1, h2, h3, h4, hb, hf, hg, ha, hs⟩
  · simp only [if_neg hn]
    by_cases hr : ch = '\r'
    · simp only [if_pos hr]
      exact wrapScrollChecked_eq _ ⟨h1, h2, h3, h4, hb, hf, hg, ha, hs⟩
    · simp only [if_neg hr]
      by_cases ht : ch = '\t'
      · simp only [if_pos ht]
        exact wrapScrollChecked_eq _ ⟨h1, h2, h3, h4, hb, hf, hg, ha, hs⟩
      · simp only [if_neg ht]
        by_cases hguard : t.cursor_x < t.width ∧ t.cursor_y < t.height
        · simp only [if_pos hguard]
          rw [putCellChecked_eq t t.cursor_y t.cursor_x ch t.current_fg t.current_bg
            t.current_attrs hWF' hguard.2 hguard.1]
          exact wrapScrollChecked_eq _
            ⟨h1, h2, h3, h4, hb.set .., hf.set .., hg.set .., ha.set .., hs⟩
        · simp only [if_neg hguard]
          exact wrapScrollChecked_eq _ ⟨h1, h2, h3, h4, hb, hf, hg, ha, hs⟩

end Vt100Terminal

theorem u32AsI32_small (n : Nat) (h : n < 2 ^ 31) : u32AsI32 n = (n : Int) := by
  unfold u32AsI32
  dsimp only
  rw [Nat.mod_eq_of_lt (by unfold U32; omega), if_pos h]

namespace Vt100Terminal

theorem move_cursor_relChecked_eq (t : Vt100Terminal) (dx dy : Int)
    (hw : t.width ≤ 2 ^ 31) (hh : t.height ≤ 2 ^ 31) :
    t.move_cursor_relChecked dx dy = some (t.move_cursor_rel dx dy) := by
  unfold move_cursor_relChecked move_cursor_rel clampI32Checked
  dsimp only
  rw [u32AsI32_small (t.width - 1) (by omega), u32AsI32_small (t.height - 1) (by omega),
      if_pos (Int.natCast_nonneg _), if_pos (Int.natCast_nonneg _)]
  rfl

theorem clear_line_from_cursorChecked_eq (t : Vt100Terminal) (hWF : t.WF) :
    t.clear_line_from_cursorChecked = some t.clear_line_from_cursor := by
  have hWF' := hWF
  obtain ⟨h1, h2, h3, h4, hb, hf, hg, ha, hcx, hcy, hs⟩ := hWF
  unfold clear_line_from_cursorChecked clear_line_from_cursor
  rw [if_neg (not_le.mpr hcy), if_neg (not_le.mpr hcy)]
  exact fillColsChecked_eq t t.cursor_y _ ' ' t.current_fg t.current_bg {} hWF' hcy
    (fun x hx => by
      rcases List.mem_range'_1.mp hx with ⟨hlo, hhi⟩
      omega)

theorem clearFromLoopChecked_eq (t : Vt100Terminal) (sr : Nat) (ys : List Nat)
    (hWF : t.WF) (hys : ∀ y ∈ ys, y < t.height) :
    t.clearFromLoopChecked sr ys = some (t.clearFromLoop sr ys) := by
  induction ys generalizing t with
  | nil => rfl
  | cons y rest ih =>
    have hcx : t.cursor_x < t.width := hWF.2.2.2.2.2.2.2.2.1
    unfold clearFromLoopChecked
    dsimp only
    rw [fillColsChecked_eq t y _ ' ' t.current_fg t.current_bg {} hWF
      (hys y (List.mem_cons_self ..))
      (fun x hx => by
        rcases List.mem_range'_1.mp hx with ⟨hlo, hhi⟩
        by_cases hysr : y = sr
        · rw [if_pos hysr] at hhi; omega
        · rw [if_neg hysr] at hhi; omega)]
    obtain ⟨B, F, G, A, hEq⟩ := fillCols_eq_update t y
      (List.range' (if y = sr then t.cursor_x else 0)
        (t.width - if y = sr then t.cursor_x else 0)) ' '
      t.current_fg t.current_bg {}
    exact ih (t.fillCols y
      (List.range' (if y = sr then t.cursor_x else 0)
        (t.width - if y = sr then t.cursor_x else 0)) ' '
      t.current_fg t.current_bg {})
      ((fillCols_stepOK ..).2.2.2.2 hWF)
      (by rw [hEq]; exact fun y' hy' => hys y' (List.mem_cons_of_mem _ hy'))

theorem clear_from_cursorChecked_eq (t : Vt100Terminal) (hWF : t.WF) :
    t.clear_from_cursorChecked = some t.clear_from_cursor := by
  have hcy : t.cursor_y < t.height := hWF.2.2.2.2.2.2.2.2.2.1
  exact clearFromLoopChecked_eq t t.cursor_y _ hWF
    (fun y hy => by
      rcases List.mem_range'_1.mp hy with ⟨hlo, hhi⟩
      omega)

theorem enter_alternate_screenChecked_eq (t : Vt100Terminal) (hWF : t.WF) :
    t.enter_alternate_screenChecked = some t.enter_alternate_screen := by
  obtain ⟨h1, h2, h3, h4, hb, hf, hg, ha, hcx, hcy, hs⟩ := hWF
  unfold enter_alternate_screenChecked enter_alternate_screen
  by_cases hin : t.in_alternate_screen = true
  · rw [if_pos hin, if_pos hin]
  · rw [if_neg hin, if_neg hin]
    dsimp only
    refine clearChecked_eq _ ⟨h1, h2, h3, h4, hb, hf, hg, ha, hcx, hcy,
      fun s hsEq => ?_⟩
    have hsaved := Option.some.inj hsEq
    rw [← hsaved]
    exact ⟨hb, hf, hg, ha, hcx, hcy⟩

end Vt100Terminal

set_option maxRecDepth 16384 in
theorem xterm_256_to_rgbChecked_eq :
    ∀ m, m < 256 → xterm_256_to_rgbChecked m = some (xterm_256_to_rgb m) := by
  decide

theorem sgrApplySimpleChecked_eq (t : Vt100Terminal) (value : Nat) :
    sgrApplySimpleChecked t value = some (sgrApplySimple t value) := by
  have hlen8 : ANSI_COLORS.length = 8 := rfl
  have hlen8b : ANSI_BRIGHT_COLORS.length = 8 := rfl
  unfold sgrApplySimpleChecked sgrApplySimple
  by_cases e0 : value = 0
  · rw [if_pos e0, if_pos e0]
  rw [if_neg e0, if_neg e0]
  by_cases e1 : value = 1
  · rw [if_pos e1, if_pos e1]
  rw [if_neg e1, if_neg e1]
  by_cases e4 : value = 4
  · rw [if_pos e4, if_pos e4]
  rw [if_neg e4, if_neg e4]
  by_cases e7 : value = 7
  · rw [if_pos e7, if_pos e7]
  rw [if_neg e7, if_neg e7]
  by_cases e22 : value = 22
  · rw [if_pos e22, if_pos e22]
  rw [if_neg e22, if_neg e22]
  by_cases e24 : value = 24
  · rw [if_pos e24, if_pos e24]
  rw [if_neg e24, if_neg e24]
  by_cases e27 : value = 27
  · rw [if_pos e27, if_pos e27]
  rw [if_neg e27, if_neg e27]
  by_cases e30 : 30 ≤ value ∧ value ≤ 37
  · rw [if_pos e30, if_pos e30,
        get?_eq_some_getD ANSI_COLORS (value - 30) (0, 0, 0) (by omega)]
    rfl
  rw [if_neg e30, if_neg e30]
  by_cases e40 : 40 ≤ value ∧ value ≤ 47
  · rw [if_pos e40, if_pos e40,
        get?_eq_some_getD ANSI_COLORS (value - 40) (0, 0, 0) (by omega)]
    rfl
  rw [if_neg e40, if_neg e40]
  by_cases e90 : 90 ≤ value ∧ value ≤ 97
  · rw [if_pos e90, if_pos e90,
        get?_eq_some_getD ANSI_BRIGHT_COLORS (value - 90) (0, 0, 0) (by omega)]
    rfl
  rw [if_neg e90, if_neg e90]
  by_cases e100 : 100 ≤ value ∧ value ≤ 107
  · rw [if_pos e100, if_pos e100,
        get?_eq_some_getD ANSI_BRIGHT_COLORS (value - 100) (0, 0, 0) (by omega)]
    rfl
  rw [if_neg e100, if_neg e100]
  by_cases e39 : value = 39
  · rw [if_pos e39, if_pos e39]
  rw [if_neg e39, if_neg e39]
  by_cases e49 : value = 49
  · rw [if_pos e49, if_pos e49]
  rw [if_neg e49, if_neg e49]

theorem sgrLoop_eq2 (t : Vt100Terminal) (value : Nat) (h38 : value = 38 ∨ value = 48)
    (r g b : Nat) (rest5 : List Nat) :
    sgrLoop t (value :: 2 :: r :: g :: b :: rest5) =
      sgrLoop (if value = 38 then
          t.set_fg_color (clamp_u16_to_u8 r, clamp_u16_to_u8 g, clamp_u16_to_u8 b)
        else t.set_bg_color (clamp_u16_to_u8 r, clamp_u16_to_u8 g, clamp_u16_to_u8 b))
        rest5 := by
  rcases h38 with h | h <;> subst h <;> rfl

theorem sgrLoopChecked_eq2 (t : Vt100Terminal) (value : Nat)
    (h38 : value = 38 ∨ value = 48) (r g b : Nat) (rest5 : List Nat) :
    sgrLoopChecked t (value :: 2 :: r :: g :: b :: rest5) =
      sgrLoopChecked (if value = 38 then
          t.set_fg_color (clamp_u16_to_u8 r, clamp_u16_to_u8 g, clamp_u16_to_u8 b)
        else t.set_bg_color (clamp_u16_to_u8 r, clamp_u16_to_u8 g, clamp_u16_to_u8 b))
        rest5 := by
  rcases h38 with h | h <;> subst h <;> rfl

theorem sgrLoop_eq5 (t : Vt100Terminal) (value : Nat) (h38 : value = 38 ∨ value = 48)
    (n : Nat) (rest3 : List Nat) :
    sgrLoop t (value :: 5 :: n :: rest3) =
      sgrLoop (if value = 38 then t.set_fg_color (xterm_256_to_rgb (n % 256))
        else t.set_bg_color (xterm_256_to_rgb (n % 256))) rest3 := by
  rw [sgrLoop.eq_def]
  split
  next xs heq => cases heq
  next v rest' heq =>
    cases heq
    rw [if_pos h38]
    split
    next heq2 => cases heq2
    next m r2 heq2 =>
      cases heq2
      rw [if_neg (by decide : ¬(5 : Nat) = 2), if_pos rfl]

theorem sgrLoopChecked_eq5 (t : Vt100Terminal) (value : Nat)
    (h38 : value = 38 ∨ value = 48) (n : Nat) (rest3 : List Nat) :
    sgrLoopChecked t (value :: 5 :: n :: rest3) =
      match xterm_256_to_rgbChecked (n % 256) with
      | some color => sgrLoopChecked (if value = 38 then t.set_fg_color color
          else t.set_bg_color color) rest3
      | none => none := by
  rw [sgrLoopChecked.eq_def]
  split
  next xs heq => cases heq
  next v rest' heq =>
    cases heq
    rw [if_pos h38]
    split
    next heq2 => cases heq2
    next m r2 heq2 =>
      cases heq2
      rw [if_neg (by decide : ¬(5 : Nat) = 2), if_pos rfl]

theorem sgrLoop_eqOther (t : Vt100Terminal) (value mode : Nat) (rest2 : List Nat)
    (h38 : value = 38 ∨ value = 48) (hm2 : ¬mode = 2) (hm5 : ¬mode = 5) :
    sgrLoop t (value :: mode :: rest2) = sgrLoop t rest2 := by
  rw [sgrLoop.eq_def]
  split
  next xs heq => cases heq
  next v rest' heq =>
    cases heq
    rw [if_pos h38]
    split
    next heq2 => cases heq2
    next m r2 heq2 =>
      cases heq2
      rw [if_neg hm2, if_neg hm5]

theorem sgrLoopChecked_eqOther (t : Vt100Terminal) (value mode : Nat)
    (rest2 : List Nat) (h38 : value = 38 ∨ value = 48) (hm2 : ¬mode = 2)
    (hm5 : ¬mode = 5) :
    sgrLoopChecked t (value :: mode :: rest2) = sgrLoopChecked t rest2 := by
  rw [sgrLoopChecked.eq_def]
  split
  next xs heq => cases heq
  next v rest' heq =>
    cases heq
    rw [if_pos h38]
    split
    next heq2 => cases heq2
    next m r2 heq2 =>
      cases heq2
      rw [if_neg hm2, if_neg hm5]

theorem sgrLoop_eqSimple (t : Vt100Terminal) (value : Nat) (rest : List Nat)
    (h38 : ¬(value = 38 ∨ value = 48)) :
    sgrLoop t (value :: rest) = sgrLoop (sgrApplySimple t value) rest := by
  rw [sgrLoop.eq_def]
  split
  next xs heq => cases heq
  next v rest2 heq =>
    cases heq
    rw [if_neg h38]

theorem sgrLoopChecked_eqSimple (t : Vt100Terminal) (value : Nat) (rest : List Nat)
    (h38 : ¬(value = 38 ∨ value = 48)) :
    sgrLoopChecked t (value :: rest) =
      match sgrApplySimpleChecked t value with
      | some t2 => sgrLoopChecked t2 rest
      | none => none := by
  rw [sgrLoopChecked.eq_def]
  split
  next xs heq => cases heq
  next v rest2 heq =>
    cases heq
    rw [if_neg h38]

theorem sgrLoopChecked_eq (t : Vt100Terminal) (values : List Nat) :
    sgrLoopChecked t values = some (sgrLoop t values) := by
  induction t, values using sgrLoop.induct with
  | case1 t => rfl
  | case2 t value h38 => rcases h38 with h | h <;> subst h <;> rfl
  | case3 t value h38 r g b rest5 color ih =>
    rw [sgrLoopChecked_eq2 t value h38 r g b rest5, sgrLoop_eq2 t value h38 r g b rest5]
    exact ih
  | case4 t value h38 rest2 hno =>
    rcases rest2 with _ | ⟨a, _ | ⟨b, _ | ⟨c, rest5⟩⟩⟩
    · rcases h38 with h | h <;> subst h <;> rfl
    · rcases h38 with h | h <;> subst h <;> rfl
    · rcases h38 with h | h <;> subst h <;> rfl
    · exact absurd rfl (hno a b c rest5)
  | case5 t value h38 n rest3 color hm ih =>
    rw [sgrLoopChecked_eq5 t value h38 n rest3, sgrLoop_eq5 t value h38 n rest3,
        xterm_256_to_rgbChecked_eq (n % 256) (Nat.mod_lt _ (by decide))]
    exact ih
  | case6 t value h38 hm => rcases h38 with h | h <;> subst h <;> rfl
  | case7 t value h38 mode rest2 hm2 hm5 ih =>
    rw [sgrLoopChecked_eqOther t value mode rest2 h38 hm2 hm5,
        sgrLoop_eqOther t value mode rest2 h38 hm2 hm5]
    exact ih
  | case8 t value rest h38 ih =>
    rw [sgrLoopChecked_eqSimple t value rest h38, sgrLoop_eqSimple t value rest h38,
        sgrApplySimpleChecked_eq t value]
    exact ih

theorem handle_sgrChecked_eq (t : Vt100Terminal) (params : List (List Nat)) :
    handle_sgrChecked t params = some (handle_sgr t params) := by
  unfold handle_sgrChecked handle_sgr
  by_cases hp : params = []
  · rw [if_pos hp, if_pos hp]
  rw [if_neg hp, if_neg hp]
  dsimp only
  by_cases hv : params.flatten = []
  · rw [if_pos hv, if_pos hv]
  rw [if_neg hv, if_neg hv]
  exact sgrLoopChecked_eq t params.flatten

theorem performExecuteChecked_eq (t : Vt100Terminal) (byte : Nat) (hWF : t.WF) :
    performExecuteChecked t byte = some (performExecute t byte) := by
  unfold performExecuteChecked performExecute
  by_cases hA : byte = 0x0A
  · rw [if_pos hA, if_pos hA]
    exact t.write_charChecked_eq '\n' hWF
  rw [if_neg hA, if_neg hA]
  by_cases hD : byte = 0x0D
  · rw [if_pos hD, if_pos hD]
    exact t.write_charChecked_eq '\r' hWF
  rw [if_neg hD, if_neg hD]
  by_cases hT : byte = 0x09
  · rw [if_pos hT, if_pos hT]
    exact t.write_charChecked_eq '\t' hWF
  rw [if_neg hT, if_neg hT]
  by_cases hB : byte = 0x08
  · rw [if_pos hB, if_pos hB]
  · rw [if_neg hB, if_neg hB]

theorem csi_dispatchChecked_eq (t : Vt100Terminal) (params : List (List Nat))
    (intermediates : List Nat) (action : Char) (hWF : t.WF)
    (hw : t.width ≤ 2 ^ 31) (hh : t.height ≤ 2 ^ 31) :
    csi_dispatchChecked t params intermediates action =
      some (csi_dispatch t params intermediates action) := by
  unfold csi_dispatchChecked csi_dispatch
  dsimp only
  by_cases hH : action = 'H' ∨ action = 'f'
  · rw [if_pos hH, if_pos hH]
  rw [if_neg hH, if_neg hH]
  by_cases hA : action = 'A'
  · rw [if_pos hA, if_pos hA]
    exact t.move_cursor_relChecked_eq 0 (-(param_or params 0 1 : Int)) hw hh
  rw [if_neg hA, if_neg hA]
  by_cases hB : action = 'B'
  · rw [if_pos hB, if_pos hB]
    exact t.move_cursor_relChecked_eq 0 (param_or params 0 1 : Int) hw hh
  rw [if_neg hB, if_neg hB]
  by_cases hC : action = 'C'
  · rw [if_pos hC, if_pos hC]
    exact t.move_cursor_relChecked_eq (param_or params 0 1 : Int) 0 hw hh
  rw [if_neg hC, if_neg hC]
  by_cases hD : action = 'D'
  · rw [if_pos hD, if_pos hD]
    exact t.move_cursor_relChecked_eq (-(param_or params 0 1 : Int)) 0 hw hh
  rw [if_neg hD, if_neg hD]
  by_cases hJ : action = 'J'
  · rw [if_pos hJ, if_pos hJ]
    by_cases hm0 : param_or params 0 0 = 0
    · rw [if_pos hm0, if_pos hm0]
      exact t.clear_from_cursorChecked_eq hWF
    rw [if_neg hm0, if_neg hm0]
    by_cases hm23 : param_or params 0 0 = 2 ∨ param_or params 0 0 = 3
    · rw [if_pos hm23, if_pos hm23]
      exact t.clearChecked_eq hWF
    · rw [if_neg hm23, if_neg hm23]
  rw [if_neg hJ, if_neg hJ]
  by_cases hK : action = 'K'
  · rw [if_pos hK, if_pos hK]
    exact t.clear_line_from_cursorChecked_eq hWF
  rw [if_neg hK, if_neg hK]
  by_cases hM : action = 'm'
  · rw [if_pos hM, if_pos hM]
    exact handle_sgrChecked_eq t params
  rw [if_neg hM, if_neg hM]
  by_cases hS : action = 's'
  · rw [if_pos hS, if_pos hS]
  rw [if_neg hS, if_neg hS]
  by_cases hU : action = 'u'
  · rw [if_pos hU, if_pos hU]
  rw [if_neg hU, if_neg hU]
  by_cases hPh : action = 'h' ∧ (intermediates.any fun b => b == 0x3F) = true
  · rw [if_pos hPh, if_pos hPh]
    by_cases hmode : param_or params 0 0 = 47 ∨ param_or params 0 0 = 1047 ∨
        param_or params 0 0 = 1049
    · rw [if_pos hmode, if_pos hmode]
      exact t.enter_alternate_screenChecked_eq hWF
    · rw [if_neg hmode, if_neg hmode]
  rw [if_neg hPh, if_neg hPh]
  by_cases hPl : action = 'l' ∧ (intermediates.any fun b => b == 0x3F) = true
  · rw [if_pos hPl, if_pos hPl]
    by_cases hmode : param_or params 0 0 = 47 ∨ param_or params 0 0 = 1047 ∨
        param_or params 0 0 = 1049
    · rw [if_pos hmode, if_pos hmode]
    · rw [if_neg hmode, if_neg hmode]
  · rw [if_neg hPl, if_neg hPl]

theorem esc_dispatchChecked_eq (t : Vt100Terminal) (intermediates : List Nat)
    (byte : Nat) (hWF : t.WF) :
    esc_dispatchChecked t intermediates byte =
      some (esc_dispatch t intermediates byte) := by
  unfold esc_dispatchChecked esc_dispatch
  dsimp only
  by_cases h37 : byte = 0x37
  · rw [if_pos h37, if_pos h37]
  rw [if_neg h37, if_neg h37]
  by_cases h38 : byte = 0x38
  · rw [if_pos h38, if_pos h38]
  rw [if_neg h38, if_neg h38]
  by_cases h63 : byte = 0x63
  · rw [if_pos h63, if_pos h63]
    exact t.clearChecked_eq hWF
  · rw [if_neg h63, if_neg h63]

theorem applyEventChecked_eq (t : Vt100Terminal) (e : Event) (hWF : t.WF)
    (hw : t.width ≤ 2 ^ 31) (hh : t.height ≤ 2 ^ 31) :
    applyEventChecked t e = some (applyEvent t e) := by
  cases e with
  | print c => exact t.write_charChecked_eq c hWF
  | execute b => exact performExecuteChecked_eq t b hWF
  | csi p i a => exact csi_dispatchChecked_eq t p i a hWF hw hh
  | esc i b => exact esc_dispatchChecked_eq t i b hWF

/-- Counterexample to claim C7 as stated: with `cols = 2^31 + 1` (a legal
`u32` dimension, and `cols ≥ 1`), the cursor-right event (the bytes
`ESC [ C`) panics: `(width - 1) as i32` is negative, so
`i32::clamp(0, max)` is called with `max < min`.  `none` is the modelled
panic. -/
theorem feed_panic_counterexample :
    applyEventChecked (Vt100Terminal.new (2 ^ 31 + 1) 1) (Event.csi [] [] 'C') =
      none := by
  rfl

/-- Claim C7 (amended): for a fresh emulator with `1 ≤ cols ≤ 2^31` and
`1 ≤ rows ≤ 2^31`, no performer event ever panics, in any reachable state:
the checked interpreter (in which every Rust panic site returns `none`)
agrees with the total one.  Events cover every byte fed through
`Vt100Parser::process_byte` (the byte-to-event translation is the external
`vte` crate) and any Unicode code point on the printable path.  For
`cols > 2^31` or `rows > 2^31` the claim is false (see the
counterexample). -/
theorem feed_no_panic (w h : Nat) (hw1 : 1 ≤ w) (hw2 : w ≤ 2 ^ 31)
    (hh1 : 1 ≤ h) (hh2 : h ≤ 2 ^ 31) (evs : List Event) (e : Event) :
    applyEventChecked (applyEvents (Vt100Terminal.new w h) evs) e =
      some (applyEvent (applyEvents (Vt100Terminal.new w h) evs) e) := by
  have hstep := applyEvents_stepOK (Vt100Terminal.new w h) evs
  refine applyEventChecked_eq _ e
    (hstep.2.2.2.2 (new_WF w h hw1 (by unfold U32; omega) hh1 (by unfold U32; omega)))
    (by rw [hstep.1]; exact hw2) (by rw [hstep.2.1]; exact hh2)

/-- Witness for C7: a concrete reachable state and event. -/
theorem feed_no_panic_witness :
    applyEventChecked (applyEvents (Vt100Terminal.new 4 3) [Event.print 'A'])
        (Event.execute 0x0A) =
      some (applyEvent (applyEvents (Vt100Terminal.new 4 3) [Event.print 'A'])
        (Event.execute 0x0A)) :=
  feed_no_panic 4 3 (by decide) (by norm_num) (by decide) (by norm_num)
    [Event.print 'A'] (Event.execute 0x0A)

end TuiHarness
